import Mathlib

/-!
# yhauth (`src/yhauth/main.c`): credential front end of the YubiHSM Auth applet

A shallow embedding of the field parsers, the credential operations and `main`
of `src/yhauth/main.c`, followed by theorems about them.

Conventions of the embedding.

* A C string is the list of its characters before the terminator (`CString`).
* `uint8_t` is `Fin 256`; `size_t` values are natural numbers (no operation of
  the file can overflow one).
* A function that returns `bool` and may write through pointers is a `Run α`:
  the trace of what it did, and `some` of the values it left behind when it
  returned `true`, `none` when it returned `false`.
* Everything the file calls but does not define (the prompt and the hex decoder
  of `parsing.h`, OpenSSL, the `ykyh_*` library, the command-line reader) is a field of
  `Env`, so that a theorem over every `Env` holds for every behaviour of these
  collaborators.
-/

namespace Yhauth

/-! ## Types and constants -/

/-- C `uint8_t`. -/
abbrev uint8_t := Fin 256

/-- A NUL-terminated C string: its characters before the terminator. -/
abbrev CString := List Char

instance : Coe String CString := ⟨String.toList⟩

/-- Modelled from the spec: `YKYH_KEY_LEN` of the header `ykyh.h`, which is not
among the sources; keys are "fixed-length (16-byte)". -/
def YKYH_KEY_LEN : Nat := 16

/-- Modelled from the spec: `YKYH_PW_LEN` of the header `ykyh.h`, which is not
among the sources; a Credential Password is "1..=16 bytes". -/
def YKYH_PW_LEN : Nat := 16

/-- Modelled from the spec: `YKYH_MAX_NAME_LEN` of the header `ykyh.h`, which is
not among the sources; a Credential Name is "1..=64 bytes". -/
def YKYH_MAX_NAME_LEN : Nat := 64

/-- Modelled from the spec: `YKYH_CONTEXT_LEN` of the header `ykyh.h`, which is
not among the sources; the Context is "fixed-length (8-byte)". -/
def YKYH_CONTEXT_LEN : Nat := 8

/-- `EXIT_SUCCESS` of `<stdlib.h>`. -/
def EXIT_SUCCESS : Int := 0

/-- `EXIT_FAILURE` of `<stdlib.h>`. -/
def EXIT_FAILURE : Int := 1

/-- Modelled from the spec: the status type `ykyh_rc` of the header `ykyh.h`,
which is not among the sources. `main.c` names two of its values,
`YKYHR_SUCCESS` and `YKYHR_WRONG_PW`; every other status is `other code`. -/
inductive ykyh_rc
  | YKYHR_SUCCESS
  | YKYHR_WRONG_PW
  | other (code : Nat)
  deriving DecidableEq, Repr

/-- Modelled from the spec: `enum enum_touch` of the generated header
`cmdline.h`, which is not among the sources; the Touch Policy is "{off, on}",
and `touch__NULL` is the value of an option that was not given. -/
inductive enum_touch
  | touch__NULL
  | touch_arg_off
  | touch_arg_on
  deriving DecidableEq, Repr

/-- Modelled from the spec: `enum enum_action` of the generated header
`cmdline.h`, which is not among the sources; the command surface "selects
exactly one action per invocation from {calculate, change, delete, list, put,
reset, retries, version}", and `action__NULL` is the value of an option that
was not given. -/
inductive enum_action
  | action__NULL
  | action_arg_calculate
  | action_arg_change
  | action_arg_delete
  | action_arg_list
  | action_arg_put
  | action_arg_reset
  | action_arg_retries
  | action_arg_version
  deriving DecidableEq, Repr

/-- Modelled from the spec: `ykyh_list_entry` of the header `ykyh.h`, which is
not among the sources; a Credential List Entry is the "tuple {algorithm
identifier, touch policy, usage counter, name}". `list_credentials` reads the
four fields `algo`, `touch`, `ctr` and `name`. -/
structure ykyh_list_entry where
  algo : uint8_t
  touch : uint8_t
  ctr : uint8_t
  name : CString
  deriving DecidableEq, Repr

/-- Modelled from the spec: the fields of `struct gengetopt_args_info` (generated
header `cmdline.h`, not among the sources) that `main` reads. -/
structure gengetopt_args_info where
  verbose_arg : Int
  reader_arg : CString
  action_arg : enum_action
  name_arg : CString
  password_arg : CString
  context_arg : CString
  authkey_arg : CString
  newkey_arg : CString
  derivation_password_arg : CString
  enckey_arg : CString
  mackey_arg : CString
  touch_arg : enum_touch
  deriving DecidableEq, Repr

/-- A call into the `ykyh` library (the Device Session), with the arguments
`main.c` passes. A buffer is passed as its contents; a C string as the string
found at the pointer. The `state` handle is left out: there is one per run. -/
inductive DeviceCall
  | ykyh_init (verbose : Int)
  | ykyh_connect (reader : CString)
  | ykyh_done
  | ykyh_delete (key : List uint8_t) (key_len : Nat) (name : CString)
  | ykyh_list_keys (list_items : Nat)
  | ykyh_put (key : List uint8_t) (key_len : Nat) (name : CString)
      (key_enc : List uint8_t) (key_enc_len : Nat)
      (key_mac : List uint8_t) (key_mac_len : Nat)
      (pw : CString) (touch_policy : uint8_t)
  | ykyh_reset
  | ykyh_get_authkey_retries
  | ykyh_get_version (version_len : Nat)
  | ykyh_calculate (name : CString) (context : List uint8_t) (context_len : Nat)
      (pw : CString) (key_s_enc_len key_s_mac_len key_s_rmac_len : Nat)
  | ykyh_put_authkey (key : List uint8_t) (key_len : Nat)
      (new_key : List uint8_t) (new_key_len : Nat)
  deriving DecidableEq, Repr

/-- One observable step of a run. `returned fn prompt ok` records that the field
parser `fn`, called for the field `prompt`, has returned `ok`. -/
inductive Event
  | read_string (prompt : CString) (len : Nat) (hidden : Nat)
  | PKCS5_PBKDF2_HMAC (pass : CString) (passlen : Nat) (salt : CString)
      (saltlen : Nat) (iter : Nat) (keylen : Nat)
  | device (call : DeviceCall)
  | stdout (text : CString)
  | stderr (text : CString)
  | returned (fn : CString) (prompt : CString) (ok : Bool)
  deriving DecidableEq, Repr

/-- The collaborators of `main.c`: what it calls and does not define, and the
constants it uses and does not define. -/
structure Env where
  /-- `HIDDEN_CHECKED` of `parsing.h`, as the integer passed to `read_string`. -/
  HIDDEN_CHECKED : Nat
  /-- `YKYH_DEFAULT_SALT` of `ykyh.h`. -/
  YKYH_DEFAULT_SALT : CString
  /-- `YKYH_DEFAULT_ITERS` of `ykyh.h`. -/
  YKYH_DEFAULT_ITERS : Nat
  /-- `read_string(prompt, buf, len, hidden)`: `none` when it returns `false`,
  else the C string it leaves in `buf`. -/
  read_string : CString → Nat → Nat → Option CString
  /-- `hex_decode(in, out, &len)` with `*len = cap` on entry: `none` when it
  returns `false`, else the bytes it decoded, whose number it stores in `*len`. -/
  hex_decode : CString → Nat → Option (List uint8_t)
  /-- The bytes that follow, up to the next NUL, when a buffer is read as a C
  string and holds no terminator: `parse_key` and `parse_context` copy the
  given text into an uninitialised `char buf[128]` without one, and `strncpy`
  writes none when the text fills the destination. Indexed by the prompt of
  the field being parsed. -/
  indeterminate : CString → CString
  /-- `PKCS5_PBKDF2_HMAC(pass, passlen, salt, saltlen, iter, EVP_sha256(),
  keylen, out)`: its return value and the `keylen` bytes of `out`. -/
  PKCS5_PBKDF2_HMAC : CString → Nat → CString → Nat → Nat → (keylen : Nat) →
    Int × { out : List uint8_t // out.length = keylen }
  /-- `ykyh_strerror`. -/
  ykyh_strerror : ykyh_rc → CString
  /-- The function `cmdline_parser(argc, argv, &args_info)` of `cmdline.h`: its
  return value and `args_info`. -/
  cmdline_parse : List CString → Int × gengetopt_args_info
  /-- `ykyh_init(&state, verbose)`. -/
  ykyh_init : Int → ykyh_rc
  /-- `ykyh_connect(state, reader)`. -/
  ykyh_connect : CString → ykyh_rc
  /-- `ykyh_delete`: status and `retries`. -/
  ykyh_delete : List uint8_t → Nat → CString → ykyh_rc × uint8_t
  /-- `ykyh_list_keys(state, list, &list_items)`: status and the entries it
  stored in `list`, whose number it stores in `*list_items`. -/
  ykyh_list_keys : Nat → ykyh_rc × List ykyh_list_entry
  /-- `ykyh_put`: status and `retries`. -/
  ykyh_put : List uint8_t → Nat → CString → List uint8_t → Nat → List uint8_t →
    Nat → CString → uint8_t → ykyh_rc × uint8_t
  /-- `ykyh_reset`. -/
  ykyh_reset : ykyh_rc
  /-- `ykyh_get_authkey_retries`: status and `retries`. -/
  ykyh_get_authkey_retries : ykyh_rc × uint8_t
  /-- `ykyh_get_version(state, version, version_len)`: status and `version`. -/
  ykyh_get_version : Nat → ykyh_rc × CString
  /-- `ykyh_calculate`: status, `retries`, and the contents of the three
  output buffers `key_s_enc`, `key_s_mac`, `key_s_rmac`. -/
  ykyh_calculate : CString → List uint8_t → Nat → CString → Nat → Nat → Nat →
    ykyh_rc × uint8_t × List uint8_t × List uint8_t × List uint8_t
  /-- `ykyh_put_authkey`: status and `retries`. -/
  ykyh_put_authkey : List uint8_t → Nat → List uint8_t → Nat → ykyh_rc × uint8_t

/-! ## Runs -/

/-- A run of a C function returning `bool`: what it did, and the values it left
behind (`some`) when it returned `true`; `none` when it returned `false`. -/
structure Run (α : Type) where
  trace : List Event
  result : Option α

namespace Run

/-- Sequencing: a `false` return ends the caller too (`return false`). -/
def bind {α β : Type} (m : Run α) (f : α → Run β) : Run β :=
  match m.result with
  | none => ⟨m.trace, none⟩
  | some a => ⟨m.trace ++ (f a).trace, (f a).result⟩

instance : Monad Run where
  pure a := ⟨[], some a⟩
  bind := Run.bind

/-- The `bool` a run of a `bool` function returned. -/
def returns {α : Type} (m : Run α) : Bool := m.result.isSome

/-- The device calls of a run, in order. -/
def deviceCalls {α : Type} (m : Run α) : List DeviceCall :=
  m.trace.filterMap fun e => match e with
    | .device c => some c
    | _ => none

end Run

/-- Record one event. -/
def emit (e : Event) : Run Unit := ⟨[e], some ()⟩

/-- The statement `return false;`. -/
def return_false {α : Type} : Run α := ⟨[], none⟩

/-- Run a field parser and record its return value. -/
def traced (fn prompt : CString) {α : Type} (m : Run α) : Run α :=
  ⟨m.trace ++ [.returned fn prompt m.result.isSome], m.result⟩

/-- Call a `bool` function and keep its return value (`result = f(...)`). -/
def call (m : Run Unit) : Run Bool := ⟨m.trace, some m.result.isSome⟩

/-! ## printf conversions -/

/-- The conversion `%d` (and `%lu`) of a non-negative value. -/
def fmt_d (v : Nat) : CString := Nat.toDigits 10 v

/-- The conversion `%02x`: lowercase hexadecimal, zero-padded to two digits. -/
def fmt_02x (v : Nat) : CString :=
  let d := Nat.toDigits 16 v
  List.replicate (2 - d.length) '0' ++ d

/-! ## Collaborators as runs -/

/-- Call of `read_string`. -/
def read_string (env : Env) (prompt : CString) (len hidden : Nat) : Run CString :=
  ⟨[.read_string prompt len hidden], env.read_string prompt len hidden⟩

/-- Call of `hex_decode`. -/
def hex_decode (env : Env) (input : CString) (cap : Nat) : Run (List uint8_t) :=
  ⟨[], env.hex_decode input cap⟩

/-- The C string read at a `cap`-byte buffer that holds the text `s` followed
by zeros: `s` when a zero fits, else `s` run on into `tail`. -/
def c_str (cap : Nat) (s tail : CString) : CString :=
  if s.length < cap then s else s ++ tail

/-! ## Field parsers (`main.c` lines 32-153) -/

/-- `parse_name(prompt, name, parsed, &parsed_len)`, `parsed` zero-filled by the
caller and `*parsed_len = parsed_len` on entry. Leaves the C string at `parsed`
and the new `*parsed_len`. -/
def parse_name (env : Env) (prompt name : CString) (parsed_len : Nat) :
    Run (CString × Nat) :=
  traced "parse_name" prompt do
    if name.length > parsed_len then
      emit (.stdout "Unable to read name, buffer too small\n")
      return_false
    let parsed ←
      if name.length = 0 then
        read_string env prompt parsed_len 0
      else
        -- strncpy(parsed, name, strlen(name)): no terminator is written
        pure (c_str parsed_len name (env.indeterminate prompt))
    pure (parsed, name.length)

/-- `parse_pw(prompt, pw, parsed, &parsed_len)`, with `*parsed_len = parsed_len`
on entry. Leaves the C string at `parsed` and the new `*parsed_len`. -/
def parse_pw (env : Env) (prompt pw : CString) (parsed_len : Nat) :
    Run (CString × Nat) :=
  traced "parse_pw" prompt do
    if pw.length > parsed_len then
      emit (.stderr "Unable to read password, buffer too small\n")
      return_false
    let parsed ←
      if pw.length = 0 then
        read_string env prompt parsed_len env.HIDDEN_CHECKED
      else
        -- strncpy(parsed, pw, *parsed_len): zero fill, no terminator when full
        pure (c_str parsed_len pw (env.indeterminate prompt))
    pure (parsed, parsed.length)

/-- `parse_key(prompt, key, parsed, &parsed_len)`, with `*parsed_len =
parsed_len` on entry. Leaves the bytes at `parsed` and the new `*parsed_len`. -/
def parse_key (env : Env) (prompt key : CString) (parsed_len : Nat) :
    Run (List uint8_t × Nat) :=
  traced "parse_key" prompt do
    let buf_size := 128
    if key.length > buf_size then
      emit (.stdout "Unable to read key, buffer too small\n")
      return_false
    let buf ←
      if key.length = 0 then
        read_string env prompt buf_size 1
      else
        -- memcpy(buf, key, strlen(key)) into the uninitialised buf
        pure (key ++ env.indeterminate prompt)
    let parsed ← hex_decode env buf parsed_len
    if parsed.length ≠ YKYH_KEY_LEN then
      emit (.stdout ("Unable to read key, wrong length (must be " ++
        fmt_d YKYH_KEY_LEN ++ ")\n"))
      return_false
    pure (parsed, parsed.length)

/-- `parse_context(prompt, context, parsed, &parsed_len)`, with `*parsed_len =
parsed_len` on entry. Leaves the bytes at `parsed` and the new `*parsed_len`. -/
def parse_context (env : Env) (prompt context : CString) (parsed_len : Nat) :
    Run (List uint8_t × Nat) :=
  traced "parse_context" prompt do
    let buf_size := 128
    if context.length > buf_size then
      emit (.stdout "Unable to read context, buffer too small\n")
      return_false
    let buf ←
      if context.length = 0 then
        read_string env prompt buf_size 0
      else
        -- memcpy(buf, context, strlen(context)) into the uninitialised buf
        pure (context ++ env.indeterminate prompt)
    let parsed ← hex_decode env buf parsed_len
    if parsed.length ≠ YKYH_CONTEXT_LEN then
      emit (.stdout ("Unable to read context, wrong length (must be " ++
        fmt_d YKYH_CONTEXT_LEN ++ ")\n"))
      return_false
    pure (parsed, parsed.length)

/-- `parse_touch_policy(touch_policy, &touch_policy_parsed)`: always returns
`true`; the value left in `*touch_policy_parsed`. -/
def parse_touch_policy (touch_policy : enum_touch) : Run uint8_t :=
  match touch_policy with
  | .touch__NULL => pure 0
  | .touch_arg_off => pure 0
  | .touch_arg_on => pure 1

/-! ## Library calls as runs -/

/-- Call of `PKCS5_PBKDF2_HMAC` with `EVP_sha256()`. -/
def PKCS5_PBKDF2_HMAC (env : Env) (pass : CString) (passlen : Nat) (salt : CString)
    (saltlen iter keylen : Nat) :
    Run (Int × { out : List uint8_t // out.length = keylen }) :=
  ⟨[.PKCS5_PBKDF2_HMAC pass passlen salt saltlen iter keylen],
   some (env.PKCS5_PBKDF2_HMAC pass passlen salt saltlen iter keylen)⟩

/-- Call of `ykyh_delete`. -/
def ykyh_delete (env : Env) (key : List uint8_t) (key_len : Nat) (name : CString) :
    Run (ykyh_rc × uint8_t) :=
  ⟨[.device (.ykyh_delete key key_len name)], some (env.ykyh_delete key key_len name)⟩

/-- Call of `ykyh_list_keys`. -/
def ykyh_list_keys (env : Env) (list_items : Nat) :
    Run (ykyh_rc × List ykyh_list_entry) :=
  ⟨[.device (.ykyh_list_keys list_items)], some (env.ykyh_list_keys list_items)⟩

/-- Call of `ykyh_put`. -/
def ykyh_put (env : Env) (key : List uint8_t) (key_len : Nat) (name : CString)
    (key_enc : List uint8_t) (key_enc_len : Nat) (key_mac : List uint8_t)
    (key_mac_len : Nat) (pw : CString) (touch_policy : uint8_t) :
    Run (ykyh_rc × uint8_t) :=
  ⟨[.device (.ykyh_put key key_len name key_enc key_enc_len key_mac key_mac_len pw
      touch_policy)],
   some (env.ykyh_put key key_len name key_enc key_enc_len key_mac key_mac_len pw
      touch_policy)⟩

/-- Call of `ykyh_reset`. -/
def ykyh_reset (env : Env) : Run ykyh_rc :=
  ⟨[.device .ykyh_reset], some env.ykyh_reset⟩

/-- Call of `ykyh_get_authkey_retries`. -/
def ykyh_get_authkey_retries (env : Env) : Run (ykyh_rc × uint8_t) :=
  ⟨[.device .ykyh_get_authkey_retries], some env.ykyh_get_authkey_retries⟩

/-- Call of `ykyh_get_version`. -/
def ykyh_get_version (env : Env) (version_len : Nat) : Run (ykyh_rc × CString) :=
  ⟨[.device (.ykyh_get_version version_len)], some (env.ykyh_get_version version_len)⟩

/-- Call of `ykyh_calculate`. -/
def ykyh_calculate (env : Env) (name : CString) (context : List uint8_t)
    (context_len : Nat) (pw : CString) (key_s_enc_len key_s_mac_len key_s_rmac_len : Nat) :
    Run (ykyh_rc × uint8_t × List uint8_t × List uint8_t × List uint8_t) :=
  ⟨[.device (.ykyh_calculate name context context_len pw key_s_enc_len key_s_mac_len
      key_s_rmac_len)],
   some (env.ykyh_calculate name context context_len pw key_s_enc_len key_s_mac_len
      key_s_rmac_len)⟩

/-- Call of `ykyh_put_authkey`. -/
def ykyh_put_authkey (env : Env) (key : List uint8_t) (key_len : Nat)
    (new_key : List uint8_t) (new_key_len : Nat) : Run (ykyh_rc × uint8_t) :=
  ⟨[.device (.ykyh_put_authkey key key_len new_key new_key_len)],
   some (env.ykyh_put_authkey key key_len new_key new_key_len)⟩

/-- Call of `ykyh_init`. -/
def ykyh_init (env : Env) (verbose : Int) : Run ykyh_rc :=
  ⟨[.device (.ykyh_init verbose)], some (env.ykyh_init verbose)⟩

/-- Call of `ykyh_connect`. -/
def ykyh_connect (env : Env) (reader : CString) : Run ykyh_rc :=
  ⟨[.device (.ykyh_connect reader)], some (env.ykyh_connect reader)⟩

/-! ## Operations (`main.c` lines 155-442) -/

/-- `delete_credential(state, authkey, name)`. -/
def delete_credential (env : Env) (authkey name : CString) : Run Unit := do
  let (authkey_parsed, authkey_parsed_len) ←
    parse_key env "Authentication key" authkey YKYH_PW_LEN
  let (name_parsed, _) ← parse_name env "Name" name (YKYH_MAX_NAME_LEN + 2)
  let (ykyhrc, retries) ← ykyh_delete env authkey_parsed authkey_parsed_len name_parsed
  if ykyhrc ≠ .YKYHR_SUCCESS then
    emit (.stderr ("Unable to delete credential: " ++ env.ykyh_strerror ykyhrc ++
      ", " ++ fmt_d retries.val ++ " retries left\n"))
    return_false
  emit (.stdout "Credential successfully deleted\n")

/-- The loop of `list_credentials`: one line for each entry, in order. -/
def list_credentials_loop : List ykyh_list_entry → Run Unit
  | [] => pure ()
  | e :: rest => do
    emit (.stdout (fmt_d e.algo.val ++ "\t" ++ fmt_d e.touch.val ++ "\t" ++
      fmt_d e.ctr.val ++ "\t" ++ e.name ++ "\n"))
    list_credentials_loop rest

/-- `list_credentials(state)`. -/
def list_credentials (env : Env) : Run Unit := do
  let (ykyhrc, list) ← ykyh_list_keys env 32
  let list_items := list.length
  if ykyhrc ≠ .YKYHR_SUCCESS then
    emit (.stderr ("Unable to list credentials: " ++ env.ykyh_strerror ykyhrc ++ "\n"))
    return_false
  if list_items = 0 then
    emit (.stdout "No items found\n")
  else
    emit (.stdout ("Found " ++ fmt_d list_items ++ " item(s)\n"))
    emit (.stdout "Algo\tTouch\tCounter\tName\n")
    list_credentials_loop list

/-- `put_credential(state, authkey, name, derivation_password, key_enc, key_mac,
password, touch_policy)`. -/
def put_credential (env : Env) (authkey name derivation_password key_enc key_mac
    password : CString) (touch_policy : enum_touch) : Run Unit := do
  let (authkey_parsed, authkey_parsed_len) ←
    parse_key env "Authentication key" authkey YKYH_KEY_LEN
  let (name_parsed, _) ← parse_name env "Name" name (YKYH_MAX_NAME_LEN + 2)
  let (dpw_parsed, dpw_parsed_len) ←
    if key_mac.length = 0 ∧ key_enc.length = 0 then
      parse_pw env "Derivation password" derivation_password 256
    else
      pure ([], 0)
  let (key_enc_parsed, key_enc_parsed_len, key_mac_parsed, key_mac_parsed_len) ←
    if dpw_parsed_len = 0 then do
      let (key_enc_parsed, key_enc_parsed_len) ←
        parse_key env "Encryption key" key_enc YKYH_KEY_LEN
      let (key_mac_parsed, key_mac_parsed_len) ←
        parse_key env "MAC key" key_mac YKYH_KEY_LEN
      pure (key_enc_parsed, key_enc_parsed_len, key_mac_parsed, key_mac_parsed_len)
    else do
      let (ret, key) ← PKCS5_PBKDF2_HMAC env dpw_parsed dpw_parsed_len
        env.YKYH_DEFAULT_SALT env.YKYH_DEFAULT_SALT.length env.YKYH_DEFAULT_ITERS
        (YKYH_KEY_LEN * 2)
      if ret ≠ 1 then
        return_false
      pure (key.val.take YKYH_KEY_LEN, YKYH_KEY_LEN,
        (key.val.drop YKYH_KEY_LEN).take YKYH_KEY_LEN, YKYH_KEY_LEN)
  let (pw_parsed, pw_parsed_len) ←
    parse_pw env "Credential Password (max 16 characters)" password (YKYH_PW_LEN + 2)
  if pw_parsed_len > YKYH_PW_LEN then
    emit (.stderr ("Credential password can not be more than " ++ fmt_d YKYH_PW_LEN ++
      " characters.\n"))
    return_false
  let touch_policy_parsed ← parse_touch_policy touch_policy
  let (ykyhrc, retries) ← ykyh_put env authkey_parsed authkey_parsed_len name_parsed
    key_enc_parsed key_enc_parsed_len key_mac_parsed key_mac_parsed_len pw_parsed
    touch_policy_parsed
  if ykyhrc ≠ .YKYHR_SUCCESS then
    emit (.stderr ("Unable to store credential: " ++ env.ykyh_strerror ykyhrc ++
      ", " ++ fmt_d retries.val ++ " retries left\n"))
    return_false
  emit (.stdout "Credential successfully stored\n")

/-- `reset_device(state)`. -/
def reset_device (env : Env) : Run Unit := do
  let ykyhrc ← ykyh_reset env
  if ykyhrc ≠ .YKYHR_SUCCESS then
    emit (.stderr ("Unable to reset device: " ++ env.ykyh_strerror ykyhrc ++ "\n"))
    return_false
  emit (.stdout "Device successuflly reset\n")

/-- `get_authkey_retries(state)`. -/
def get_authkey_retries (env : Env) : Run Unit := do
  let (ykyhrc, retries) ← ykyh_get_authkey_retries env
  if ykyhrc ≠ .YKYHR_SUCCESS then
    emit (.stderr ("Unable to get authkey retries: " ++ env.ykyh_strerror ykyhrc ++ "\n"))
    return_false
  emit (.stdout ("Retries left for Authentication Key: " ++ fmt_d retries.val ++ "\n"))

/-- `get_version(state)`. -/
def get_version (env : Env) : Run Unit := do
  let (ykyhrc, version) ← ykyh_get_version env 64
  if ykyhrc ≠ .YKYHR_SUCCESS then
    emit (.stderr ("Unable to get version: " ++ env.ykyh_strerror ykyhrc ++ "\n"))
    return_false
  emit (.stdout ("Version " ++ version ++ "\n"))

/-- The loop of `print_key`: `%02x` of `key[i]` for each `i < len`. -/
def print_key_loop : List uint8_t → Nat → Run Unit
  | b :: rest, len + 1 => do
    emit (.stdout (fmt_02x b.val))
    print_key_loop rest len
  | _, _ => pure ()

/-- `print_key(prompt, key, len)`. -/
def print_key (prompt : CString) (key : List uint8_t) (len : Nat) : Run Unit := do
  emit (.stdout (prompt ++ ": "))
  print_key_loop key len
  emit (.stdout "\n")

/-- `calculate_session_keys(state, name, password, context)`. -/
def calculate_session_keys (env : Env) (name password context : CString) :
    Run Unit := do
  let key_s_enc_len := YKYH_KEY_LEN
  let key_s_mac_len := YKYH_KEY_LEN
  let key_s_rmac_len := YKYH_KEY_LEN
  let (name_parsed, _) ← parse_name env "Name" name (YKYH_MAX_NAME_LEN + 2)
  let (context_parsed, context_parsed_len) ←
    parse_context env "Context" context YKYH_CONTEXT_LEN
  let (pw_parsed, _) ← parse_pw env "Password" password (YKYH_PW_LEN + 2)
  let (ykyhrc, retries, key_s_enc, key_s_mac, key_s_rmac) ←
    ykyh_calculate env name_parsed context_parsed context_parsed_len pw_parsed
      key_s_enc_len key_s_mac_len key_s_rmac_len
  if ykyhrc ≠ .YKYHR_SUCCESS then
    emit (.stderr ("Unable to calculate session keys: " ++ env.ykyh_strerror ykyhrc ++
      "\n"))
    if ykyhrc = .YKYHR_WRONG_PW then
      emit (.stderr (fmt_d retries.val ++ " attempts left\n"))
    return_false
  print_key "Session encryption key" key_s_enc key_s_enc_len
  print_key "Session MAC key" key_s_mac key_s_mac_len
  print_key "Session R-MAC key" key_s_rmac key_s_rmac_len

/-- `put_authkey(state, authkey, new_authkey)`. -/
def put_authkey (env : Env) (authkey new_authkey : CString) : Run Unit := do
  let (authkey_parsed, authkey_parsed_len) ←
    parse_key env "Authentication key" authkey YKYH_KEY_LEN
  let (new_authkey_parsed, new_authkey_parsed_len) ←
    parse_key env "New Authentication key" new_authkey YKYH_KEY_LEN
  let (ykyhrc, retries) ← ykyh_put_authkey env authkey_parsed authkey_parsed_len
    new_authkey_parsed new_authkey_parsed_len
  if ykyhrc ≠ .YKYHR_SUCCESS then
    emit (.stderr ("Unable to change Authentication key: " ++ env.ykyh_strerror ykyhrc ++
      ", " ++ fmt_d retries.val ++ " retries left\n"))
    return_false
  emit (.stdout "Authentication key successfully changed\n")

/-! ## `main` (`main.c` lines 444-521) -/

/-- The body of `main` up to the label `main_exit`: `none` is a `goto
main_exit` that leaves `rc = EXIT_FAILURE`, `some rc` is falling through to the
label with that `rc`. -/
def main_body (env : Env) (argv : List CString) : Run Int := do
  let rc := EXIT_FAILURE
  let (parsed, args_info) := env.cmdline_parse argv
  if parsed ≠ 0 then
    return_false
  let ykyhrc ← ykyh_init env args_info.verbose_arg
  if ykyhrc ≠ .YKYHR_SUCCESS then
    emit (.stderr "Failed to initialize libykyh\n")
    return_false
  let ykyhrc ← ykyh_connect env args_info.reader_arg
  if ykyhrc ≠ .YKYHR_SUCCESS then
    emit (.stderr ("Unable to connect: " ++ env.ykyh_strerror ykyhrc ++ "\n"))
    return_false
  let result ←
    match args_info.action_arg with
    | .action_arg_calculate =>
      call (calculate_session_keys env args_info.name_arg args_info.password_arg
        args_info.context_arg)
    | .action_arg_change =>
      call (put_authkey env args_info.authkey_arg args_info.newkey_arg)
    | .action_arg_delete =>
      call (delete_credential env args_info.authkey_arg args_info.name_arg)
    | .action_arg_list =>
      call (list_credentials env)
    | .action_arg_put =>
      call (put_credential env args_info.authkey_arg args_info.name_arg
        args_info.derivation_password_arg args_info.enckey_arg args_info.mackey_arg
        args_info.password_arg args_info.touch_arg)
    | .action_arg_reset =>
      call (reset_device env)
    | .action_arg_retries =>
      call (get_authkey_retries env)
    | .action_arg_version =>
      call (get_version env)
    | .action__NULL => do
      emit (.stderr "No action given, nothing to do\n")
      pure false
  if result = true then
    pure EXIT_SUCCESS
  else
    pure rc

/-- `main(argc, argv)`: the trace of the run and the exit code. -/
def main (env : Env) (argv : List CString) : List Event × Int :=
  let body := main_body env argv
  (body.trace ++ [.device .ykyh_done], body.result.getD EXIT_FAILURE)

/-! ## Observations on traces -/

/-- What a trace wrote to `stdout`. -/
def stdout_text : List Event → CString
  | [] => []
  | .stdout text :: rest => text ++ stdout_text rest
  | _ :: rest => stdout_text rest

/-- What a trace wrote to `stderr`. -/
def stderr_text : List Event → CString
  | [] => []
  | .stderr text :: rest => text ++ stderr_text rest
  | _ :: rest => stderr_text rest

/-- The device calls of a trace, in order. -/
def device_calls (t : List Event) : List DeviceCall :=
  t.filterMap fun e => match e with
    | .device c => some c
    | _ => none

/-- Some field parser returned `false` in the trace. -/
def parser_failed (t : List Event) : Prop :=
  ∃ fn prompt, Event.returned fn prompt false ∈ t

/-- The hexadecimal text `print_key` writes for `key[0..len)`. -/
def key_text (key : List uint8_t) (len : Nat) : CString :=
  stdout_text (print_key_loop key len).trace

/-! ## The hex decoder of the spec -/

/-- Modelled from the spec: the value of a hexadecimal digit, for `decode_hex`;
any other character is one of the "non-hex characters". -/
def hex_value (c : Char) : Option Nat :=
  if '0' ≤ c ∧ c ≤ '9' then some (c.toNat - '0'.toNat)
  else if 'a' ≤ c ∧ c ≤ 'f' then some (c.toNat - 'a'.toNat + 10)
  else if 'A' ≤ c ∧ c ≤ 'F' then some (c.toNat - 'A'.toNat + 10)
  else none

/-- Modelled from the spec: `decode_hex` of section 4.1 (the function
`hex_decode` of `parsing.h`, whose definition is not among the sources): it
"fails with `InvalidEncoding` on non-hex characters or odd length; succeeds with
an exact-length byte buffer otherwise". -/
def decode_hex : CString → Option (List uint8_t)
  | [] => some []
  | [_] => none
  | hi :: lo :: rest =>
    match hex_value hi, hex_value lo, decode_hex rest with
    | some h, some l, some bytes => some (Fin.ofNat (16 * h + l) :: bytes)
    | _, _, _ => none

/-! ## Shapes of runs, for the proofs -/

/-- A run that makes no device call and records no parser return. -/
def Silent {α : Type} (m : Run α) : Prop :=
  device_calls m.trace = [] ∧ ¬ parser_failed m.trace

/-- A run that makes no device call, and returns `false` when one of the field
parsers it ran returned `false`. -/
def Local {α : Type} (m : Run α) : Prop :=
  device_calls m.trace = [] ∧ (parser_failed m.trace → m.result = none)

/-- A run that makes at most one device call, and returns `false` without any
device call when one of the field parsers it ran returned `false`. -/
def Guarded {α : Type} (m : Run α) : Prop :=
  (device_calls m.trace).length ≤ 1 ∧
  (parser_failed m.trace → m.result = none ∧ device_calls m.trace = [])

/-- Every device call of the run satisfies `P`. -/
def Calls {α : Type} (P : DeviceCall → Prop) (m : Run α) : Prop :=
  ∀ c ∈ device_calls m.trace, P c

/-- The events of the password path of `put_credential`: a call of the key
derivation function, a prompt for the Derivation Password, and the return of
the parser of the Derivation Password. -/
def derivation_event : Event → Bool
  | .PKCS5_PBKDF2_HMAC _ _ _ _ _ _ => true
  | .read_string prompt _ _ => prompt == ("Derivation password" : CString)
  | .returned _ prompt _ => prompt == ("Derivation password" : CString)
  | _ => false

/-- The touch flag `parse_touch_policy` stores for a touch policy. -/
def touch_flag : enum_touch → uint8_t
  | .touch_arg_on => 1
  | _ => 0

/-- A run that returns `false` and has made no device call. -/
def Refused {α : Type} (m : Run α) : Prop :=
  m.result = none ∧ device_calls m.trace = []

/-! ## A concrete environment, for the examples -/

/-- The arguments of the examples: nothing given. -/
def no_args : gengetopt_args_info where
  verbose_arg := 0
  reader_arg := []
  action_arg := .action__NULL
  name_arg := []
  password_arg := []
  context_arg := []
  authkey_arg := []
  newkey_arg := []
  derivation_password_arg := []
  enckey_arg := []
  mackey_arg := []
  touch_arg := .touch__NULL

/-- The key-derivation output of the examples: the bytes `0, 1, ..., keylen-1`. -/
def example_kdf (keylen : Nat) : { out : List uint8_t // out.length = keylen } :=
  ⟨(List.range keylen).map Fin.ofNat, by simp⟩

/-- The environment of the examples. Nobody answers a prompt; `hex_decode` is
the decoder of the spec, bounded by the capacity it is given; buffers are
followed by a NUL; key derivation succeeds with `example_kdf`; the command line
parses to `args`; the library initialises and connects; the device answers
every operation with status `rc` and `retries`, lists `entries`, and returns
the session keys `0x11...`, `0x22...`, `0x33...`. -/
def example_env (rc : ykyh_rc) (retries : uint8_t) (entries : List ykyh_list_entry)
    (args : gengetopt_args_info) : Env where
  HIDDEN_CHECKED := 1
  YKYH_DEFAULT_SALT := "Yubico"
  YKYH_DEFAULT_ITERS := 10000
  read_string := fun _ _ _ => none
  hex_decode := fun s cap =>
    match decode_hex s with
    | some bytes => if bytes.length ≤ cap then some bytes else none
    | none => none
  indeterminate := fun _ => []
  PKCS5_PBKDF2_HMAC := fun _ _ _ _ _ keylen => (1, example_kdf keylen)
  ykyh_strerror := fun status =>
    match status with
    | .YKYHR_SUCCESS => "Success"
    | .YKYHR_WRONG_PW => "Wrong password"
    | .other _ => "Error"
  cmdline_parse := fun _ => (0, args)
  ykyh_init := fun _ => .YKYHR_SUCCESS
  ykyh_connect := fun _ => .YKYHR_SUCCESS
  ykyh_delete := fun _ _ _ => (rc, retries)
  ykyh_list_keys := fun _ => (rc, entries)
  ykyh_put := fun _ _ _ _ _ _ _ _ _ => (rc, retries)
  ykyh_reset := rc
  ykyh_get_authkey_retries := (rc, retries)
  ykyh_get_version := fun _ => (rc, "1.0.0")
  ykyh_calculate := fun _ _ _ _ _ _ _ =>
    (rc, retries, List.replicate 16 17, List.replicate 16 34, List.replicate 16 51)
  ykyh_put_authkey := fun _ _ _ _ => (rc, retries)

/-- Hex text of sixteen zero bytes. -/
def zero_key_hex : CString := List.replicate 32 '0'

/-- Hex text of eight zero bytes. -/
def zero_context_hex : CString := List.replicate 16 '0'

/-- A Credential Password of 17 bytes. -/
def password_17 : CString := "12345678901234567"

/-- A Credential Name of 65 bytes. -/
def name_65 : CString := List.replicate 65 'a'

/-- A Credential Name of 67 bytes. -/
def name_67 : CString := List.replicate 67 'a'

/-! # Theorems -/

/-! ## Lemmas on runs -/

theorem run_bind_eq {α β : Type} (m : Run α) (f : α → Run β) :
    (m >>= f) = Run.bind m f := rfl

theorem run_pure_eq {α : Type} (a : α) : (pure a : Run α) = ⟨[], some a⟩ := rfl

theorem stdout_text_append (a b : List Event) :
    stdout_text (a ++ b) = stdout_text a ++ stdout_text b := by
  induction a with
  | nil => rfl
  | cons e rest ih => cases e <;> simp [stdout_text, ih]

theorem stderr_text_append (a b : List Event) :
    stderr_text (a ++ b) = stderr_text a ++ stderr_text b := by
  induction a with
  | nil => rfl
  | cons e rest ih => cases e <;> simp [stderr_text, ih]

theorem device_calls_append (a b : List Event) :
    device_calls (a ++ b) = device_calls a ++ device_calls b := by
  simp [device_calls, List.filterMap_append]

theorem parser_failed_append (a b : List Event) :
    parser_failed (a ++ b) ↔ parser_failed a ∨ parser_failed b := by
  constructor
  · rintro ⟨fn, p, h⟩
    rcases List.mem_append.mp h with h | h
    · exact Or.inl ⟨fn, p, h⟩
    · exact Or.inr ⟨fn, p, h⟩
  · rintro (⟨fn, p, h⟩ | ⟨fn, p, h⟩)
    · exact ⟨fn, p, List.mem_append.mpr (Or.inl h)⟩
    · exact ⟨fn, p, List.mem_append.mpr (Or.inr h)⟩

theorem not_parser_failed_nil : ¬ parser_failed [] := by
  rintro ⟨fn, p, h⟩
  simp at h

theorem silent_pure {α : Type} (a : α) : Silent (pure a : Run α) :=
  ⟨rfl, not_parser_failed_nil⟩

theorem silent_return_false {α : Type} : Silent (return_false : Run α) :=
  ⟨rfl, not_parser_failed_nil⟩

theorem silent_stdout (s : CString) : Silent (emit (.stdout s)) := by
  refine ⟨rfl, ?_⟩
  rintro ⟨fn, p, h⟩
  simp [emit] at h

theorem silent_stderr (s : CString) : Silent (emit (.stderr s)) := by
  refine ⟨rfl, ?_⟩
  rintro ⟨fn, p, h⟩
  simp [emit] at h

theorem silent_read_string (env : Env) (p : CString) (n h : Nat) :
    Silent (read_string env p n h) := by
  refine ⟨rfl, ?_⟩
  rintro ⟨fn, q, hm⟩
  simp [read_string] at hm

theorem silent_hex_decode (env : Env) (s : CString) (n : Nat) :
    Silent (hex_decode env s n) :=
  ⟨rfl, not_parser_failed_nil⟩

theorem silent_pbkdf2 (env : Env) (p : CString) (n : Nat) (s : CString) (a b c : Nat) :
    Silent (PKCS5_PBKDF2_HMAC env p n s a b c) := by
  refine ⟨rfl, ?_⟩
  rintro ⟨fn, q, hm⟩
  simp [PKCS5_PBKDF2_HMAC] at hm

theorem silent_bind {α β : Type} {m : Run α} {f : α → Run β}
    (hm : Silent m) (hf : ∀ a, Silent (f a)) : Silent (m >>= f) := by
  obtain ⟨t, r⟩ := m
  cases r with
  | none => exact hm
  | some a =>
    refine ⟨?_, ?_⟩
    · show device_calls (t ++ (f a).trace) = []
      rw [device_calls_append, (hf a).1]
      have := hm.1
      simp only at this
      rw [this]; rfl
    · show ¬ parser_failed (t ++ (f a).trace)
      rw [parser_failed_append]
      rintro (h | h)
      · exact hm.2 h
      · exact (hf a).2 h

theorem silent_ite {α : Type} {c : Prop} [Decidable c] {a b : Run α}
    (ha : Silent a) (hb : Silent b) : Silent (if c then a else b) := by
  split <;> assumption

theorem local_of_silent {α : Type} {m : Run α} (h : Silent m) : Local m :=
  ⟨h.1, fun hp => absurd hp h.2⟩

theorem local_traced {α : Type} (fn p : CString) {m : Run α} (h : Silent m) :
    Local (traced fn p m) := by
  refine ⟨?_, ?_⟩
  · show device_calls (m.trace ++ [_]) = []
    rw [device_calls_append, h.1]; rfl
  · intro hp
    show m.result = none
    have hp2 : parser_failed (m.trace ++ [Event.returned fn p m.result.isSome]) := hp
    rw [parser_failed_append] at hp2
    rcases hp2 with hp2 | ⟨fn2, p2, hm⟩
    · exact absurd hp2 h.2
    · simp only [List.mem_singleton, Event.returned.injEq] at hm
      cases hr : m.result with
      | none => rfl
      | some a => rw [hr] at hm; simp at hm

theorem local_bind {α β : Type} {m : Run α} {f : α → Run β}
    (hm : Local m) (hf : ∀ a, Local (f a)) : Local (m >>= f) := by
  obtain ⟨t, r⟩ := m
  cases r with
  | none => exact ⟨hm.1, fun _ => rfl⟩
  | some a =>
    have hm1 : device_calls t = [] := hm.1
    have hm2 : parser_failed t → (some a : Option α) = none := hm.2
    refine ⟨?_, ?_⟩
    · show device_calls (t ++ (f a).trace) = []
      rw [device_calls_append, (hf a).1, hm1]; rfl
    · intro hp
      show (f a).result = none
      have hp2 : parser_failed (t ++ (f a).trace) := hp
      rw [parser_failed_append] at hp2
      rcases hp2 with h | h
      · exact absurd (hm2 h) (by simp)
      · exact (hf a).2 h

theorem local_ite {α : Type} {c : Prop} [Decidable c] {a b : Run α}
    (ha : Local a) (hb : Local b) : Local (if c then a else b) := by
  split <;> assumption

theorem guarded_of_local {α : Type} {m : Run α} (h : Local m) : Guarded m :=
  ⟨by rw [h.1]; simp, fun hp => ⟨h.2 hp, h.1⟩⟩

theorem guarded_bind {α β : Type} {m : Run α} {f : α → Run β}
    (hm : Local m) (hf : ∀ a, Guarded (f a)) : Guarded (m >>= f) := by
  obtain ⟨t, r⟩ := m
  cases r with
  | none => exact guarded_of_local ⟨hm.1, fun _ => rfl⟩
  | some a =>
    have hm1 : device_calls t = [] := hm.1
    have hm2 : parser_failed t → (some a : Option α) = none := hm.2
    have hd : device_calls (t ++ (f a).trace) = device_calls (f a).trace := by
      rw [device_calls_append, hm1]; rfl
    refine ⟨?_, ?_⟩
    · show (device_calls (t ++ (f a).trace)).length ≤ 1
      rw [hd]; exact (hf a).1
    · intro hp
      show (f a).result = none ∧ device_calls (t ++ (f a).trace) = []
      have hp2 : parser_failed (t ++ (f a).trace) := hp
      rw [parser_failed_append] at hp2
      rw [hd]
      rcases hp2 with h | h
      · exact absurd (hm2 h) (by simp)
      · exact (hf a).2 h

theorem guarded_device {α β : Type} {m : Run α} (c : DeviceCall) (a : α) {f : α → Run β}
    (hm : m = ⟨[.device c], some a⟩) (hf : Silent (f a)) : Guarded (m >>= f) := by
  subst hm
  refine ⟨?_, ?_⟩
  · show (device_calls ([Event.device c] ++ (f a).trace)).length ≤ 1
    rw [device_calls_append, hf.1]; simp [device_calls]
  · intro hp
    have hp2 : parser_failed ([Event.device c] ++ (f a).trace) := hp
    rw [parser_failed_append] at hp2
    rcases hp2 with ⟨fn, p, h⟩ | h
    · simp at h
    · exact absurd h hf.2

/-! ## Runs of the parsers that succeed -/

theorem bind_of_result {α β : Type} {m : Run α} {a : α} (f : α → Run β)
    (h : m.result = some a) :
    (m >>= f) = ⟨m.trace ++ (f a).trace, (f a).result⟩ := by
  show Run.bind m f = _
  unfold Run.bind
  rw [h]

theorem bind_of_none {α β : Type} {m : Run α} (f : α → Run β)
    (h : m.result = none) :
    (m >>= f) = ⟨m.trace, none⟩ := by
  show Run.bind m f = _
  unfold Run.bind
  rw [h]

theorem bind_result {α β : Type} (m : Run α) (f : α → Run β) :
    (m >>= f).result = m.result.bind fun a => (f a).result := by
  show (Run.bind m f).result = _
  unfold Run.bind
  cases m.result <;> rfl

theorem bind_trace {α β : Type} (m : Run α) (f : α → Run β) :
    (m >>= f).trace = m.trace ++
      (match m.result with
        | some a => (f a).trace
        | none => []) := by
  show (Run.bind m f).trace = _
  unfold Run.bind
  cases m.result <;> simp

theorem traced_result {α : Type} (fn prompt : CString) (m : Run α) :
    (traced fn prompt m).result = m.result := rfl

theorem traced_trace {α : Type} (fn prompt : CString) (m : Run α) :
    (traced fn prompt m).trace = m.trace ++ [.returned fn prompt m.result.isSome] := rfl

theorem pure_result {α : Type} (a : α) : (pure a : Run α).result = some a := rfl

theorem pure_trace {α : Type} (a : α) : (pure a : Run α).trace = [] := rfl

theorem emit_result (e : Event) : (emit e).result = some () := rfl

theorem emit_trace (e : Event) : (emit e).trace = [e] := rfl

theorem return_false_result {α : Type} : (return_false : Run α).result = none := rfl

theorem return_false_trace {α : Type} : (return_false : Run α).trace = [] := rfl

theorem ite_result {α : Type} (c : Prop) [Decidable c] (a b : Run α) :
    (if c then a else b).result = if c then a.result else b.result := by
  split <;> rfl

theorem ite_trace {α : Type} (c : Prop) [Decidable c] (a b : Run α) :
    (if c then a else b).trace = if c then a.trace else b.trace := by
  split <;> rfl

theorem read_string_result (env : Env) (p : CString) (n h : Nat) :
    (read_string env p n h).result = env.read_string p n h := rfl

theorem read_string_trace (env : Env) (p : CString) (n h : Nat) :
    (read_string env p n h).trace = [.read_string p n h] := rfl

theorem hex_decode_result (env : Env) (s : CString) (n : Nat) :
    (hex_decode env s n).result = env.hex_decode s n := rfl

theorem hex_decode_trace (env : Env) (s : CString) (n : Nat) :
    (hex_decode env s n).trace = [] := rfl

theorem parse_name_ok (env : Env) (prompt name : CString) (n : Nat) (r : CString × Nat)
    (h : (parse_name env prompt name n).result = some r) :
    (parse_name env prompt name n).trace =
      (if name.length = 0 then [.read_string prompt n 0] else []) ++
        [.returned "parse_name" prompt true] := by
  unfold parse_name at h ⊢
  rw [traced_result] at h
  rw [traced_trace, h]
  by_cases h1 : name.length > n
  · simp [h1, bind_result, return_false_result, emit_result] at h
  · by_cases h2 : name.length = 0
    · cases h3 : env.read_string prompt n 0 <;>
        simp [h1, h2, h3, bind_result, bind_trace, read_string_result, read_string_trace,
          pure_result, pure_trace] at h ⊢
    · simp [h1, h2, bind_result, bind_trace, pure_result, pure_trace] at h ⊢

theorem parse_pw_ok (env : Env) (prompt pw : CString) (n : Nat) (r : CString × Nat)
    (h : (parse_pw env prompt pw n).result = some r) :
    (parse_pw env prompt pw n).trace =
      (if pw.length = 0 then [.read_string prompt n env.HIDDEN_CHECKED] else []) ++
        [.returned "parse_pw" prompt true] := by
  unfold parse_pw at h ⊢
  rw [traced_result] at h
  rw [traced_trace, h]
  by_cases h1 : pw.length > n
  · simp [h1, bind_result, return_false_result, emit_result] at h
  · by_cases h2 : pw.length = 0
    · cases h3 : env.read_string prompt n env.HIDDEN_CHECKED <;>
        simp [h1, h2, h3, bind_result, bind_trace, read_string_result, read_string_trace,
          pure_result, pure_trace] at h ⊢
    · simp [h1, h2, bind_result, bind_trace, pure_result, pure_trace] at h ⊢

theorem parse_key_ok (env : Env) (prompt key : CString) (n : Nat) (r : List uint8_t × Nat)
    (h : (parse_key env prompt key n).result = some r) :
    (parse_key env prompt key n).trace =
      (if key.length = 0 then [.read_string prompt 128 1] else []) ++
        [.returned "parse_key" prompt true] ∧
    r.1.length = YKYH_KEY_LEN ∧ r.2 = YKYH_KEY_LEN := by
  unfold parse_key at h ⊢
  rw [traced_result] at h
  rw [traced_trace, h]
  by_cases h1 : key.length > 128
  · simp [h1, bind_result, return_false_result, emit_result] at h
  · by_cases h2 : key.length = 0
    · cases h3 : env.read_string prompt 128 1 with
      | none =>
        simp [h1, h2, h3, bind_result, read_string_result, pure_result] at h
      | some buf =>
        cases h4 : env.hex_decode buf n with
        | none =>
          simp [h1, h2, h3, h4, bind_result, read_string_result, hex_decode_result,
            pure_result] at h
        | some parsed =>
          by_cases h5 : parsed.length = YKYH_KEY_LEN
          · simp [h1, h2, h3, h4, h5, bind_result, bind_trace, read_string_result,
              read_string_trace, hex_decode_result, hex_decode_trace, pure_result,
              pure_trace] at h ⊢
            subst h
            exact ⟨h5, rfl⟩
          · simp [h1, h2, h3, h4, h5, bind_result, read_string_result, hex_decode_result,
              pure_result, return_false_result, emit_result] at h
    · cases h4 : env.hex_decode (key ++ env.indeterminate prompt) n with
      | none =>
        simp [h1, h2, h4, bind_result, hex_decode_result, pure_result] at h
      | some parsed =>
        by_cases h5 : parsed.length = YKYH_KEY_LEN
        · simp [h1, h2, h4, h5, bind_result, bind_trace, hex_decode_result,
            hex_decode_trace, pure_result, pure_trace] at h ⊢
          subst h
          exact ⟨h5, rfl⟩
        · simp [h1, h2, h4, h5, bind_result, hex_decode_result,
            pure_result, return_false_result, emit_result] at h

theorem parse_context_ok (env : Env) (prompt context : CString) (n : Nat)
    (r : List uint8_t × Nat)
    (h : (parse_context env prompt context n).result = some r) :
    (parse_context env prompt context n).trace =
      (if context.length = 0 then [.read_string prompt 128 0] else []) ++
        [.returned "parse_context" prompt true] ∧
    r.1.length = YKYH_CONTEXT_LEN ∧ r.2 = YKYH_CONTEXT_LEN := by
  unfold parse_context at h ⊢
  rw [traced_result] at h
  rw [traced_trace, h]
  by_cases h1 : context.length > 128
  · simp [h1, bind_result, return_false_result, emit_result] at h
  · by_cases h2 : context.length = 0
    · cases h3 : env.read_string prompt 128 0 with
      | none =>
        simp [h1, h2, h3, bind_result, read_string_result, pure_result] at h
      | some buf =>
        cases h4 : env.hex_decode buf n with
        | none =>
          simp [h1, h2, h3, h4, bind_result, read_string_result, hex_decode_result,
            pure_result] at h
        | some parsed =>
          by_cases h5 : parsed.length = YKYH_CONTEXT_LEN
          · simp [h1, h2, h3, h4, h5, bind_result, bind_trace, read_string_result,
              read_string_trace, hex_decode_result, hex_decode_trace, pure_result,
              pure_trace] at h ⊢
            subst h
            exact ⟨h5, rfl⟩
          · simp [h1, h2, h3, h4, h5, bind_result, read_string_result, hex_decode_result,
              pure_result, return_false_result, emit_result] at h
    · cases h4 : env.hex_decode (context ++ env.indeterminate prompt) n with
      | none =>
        simp [h1, h2, h4, bind_result, hex_decode_result, pure_result] at h
      | some parsed =>
        by_cases h5 : parsed.length = YKYH_CONTEXT_LEN
        · simp [h1, h2, h4, h5, bind_result, bind_trace, hex_decode_result,
            hex_decode_trace, pure_result, pure_trace] at h ⊢
          subst h
          exact ⟨h5, rfl⟩
        · simp [h1, h2, h4, h5, bind_result, hex_decode_result,
            pure_result, return_false_result, emit_result] at h

/-! ## The hexadecimal rendering of `print_key` -/

set_option maxRecDepth 100000 in
theorem fmt_02x_byte : ∀ b : uint8_t,
    fmt_02x b.val = [Nat.digitChar (b.val / 16), Nat.digitChar (b.val % 16)] := by
  decide

set_option maxRecDepth 100000 in
theorem hex_value_digitChar : ∀ b : uint8_t,
    hex_value (Nat.digitChar (b.val / 16)) = some (b.val / 16) ∧
    hex_value (Nat.digitChar (b.val % 16)) = some (b.val % 16) := by
  decide

set_option maxRecDepth 100000 in
theorem digitChar_lower : ∀ b : uint8_t,
    "0123456789abcdef".toList[b.val / 16]? = some (Nat.digitChar (b.val / 16)) ∧
    "0123456789abcdef".toList[b.val % 16]? = some (Nat.digitChar (b.val % 16)) := by
  decide

theorem print_key_loop_result (key : List uint8_t) (len : Nat) :
    (print_key_loop key len).result = some () := by
  induction key generalizing len with
  | nil => cases len <;> rfl
  | cons b rest ih =>
    cases len with
    | zero => rfl
    | succ n => simp [print_key_loop, run_bind_eq, Run.bind, emit, ih]

theorem key_text_cons (b : uint8_t) (rest : List uint8_t) (n : Nat) :
    key_text (b :: rest) (n + 1) = fmt_02x b.val ++ key_text rest n := by
  simp [key_text, print_key_loop, run_bind_eq, Run.bind, emit, print_key_loop_result, stdout_text]

theorem key_text_nil (n : Nat) : key_text [] n = [] := by
  cases n <;> rfl

theorem key_text_length (b : List uint8_t) : (key_text b b.length).length = 2 * b.length := by
  induction b with
  | nil => rfl
  | cons x rest ih =>
    rw [List.length_cons, key_text_cons, fmt_02x_byte, List.length_append, ih]
    simp only [List.length_cons, List.length_nil]
    omega

theorem key_text_lower (b : List uint8_t) :
    ∀ c ∈ key_text b b.length, c ∈ "0123456789abcdef".toList := by
  induction b with
  | nil => intro c hc; simp [key_text_nil] at hc
  | cons x rest ih =>
    intro c hc
    rw [List.length_cons, key_text_cons, fmt_02x_byte] at hc
    have hd := digitChar_lower x
    rcases List.mem_append.mp hc with h | h
    · have h2 : c = Nat.digitChar (x.val / 16) ∨ c = Nat.digitChar (x.val % 16) := by
        simpa using h
      rcases h2 with h2 | h2
      · rw [h2]; exact List.getElem?_mem hd.1
      · rw [h2]; exact List.getElem?_mem hd.2
    · exact ih c h

theorem key_text_nibbles (b : List uint8_t) (i : Nat) (h : i < b.length) :
    (key_text b b.length)[2 * i]? = "0123456789abcdef".toList[(b.get ⟨i, h⟩).val / 16]? ∧
    (key_text b b.length)[2 * i + 1]? =
      "0123456789abcdef".toList[(b.get ⟨i, h⟩).val % 16]? := by
  induction b generalizing i with
  | nil => simp at h
  | cons x rest ih =>
    have hk : key_text (x :: rest) (x :: rest).length =
        Nat.digitChar (x.val / 16) :: Nat.digitChar (x.val % 16) ::
          key_text rest rest.length := by
      rw [List.length_cons, key_text_cons, fmt_02x_byte]; rfl
    rw [hk]
    have hd := digitChar_lower x
    cases i with
    | zero =>
      refine ⟨?_, ?_⟩
      · show some (Nat.digitChar (x.val / 16)) = _
        exact hd.1.symm
      · have e : (Nat.digitChar (x.val / 16) :: Nat.digitChar (x.val % 16) ::
            key_text rest rest.length)[2 * 0 + 1]? = some (Nat.digitChar (x.val % 16)) := by
          simp
        rw [e]
        exact hd.2.symm
    | succ j =>
      have hj : j < rest.length := by simpa using h
      have := ih j hj
      refine ⟨?_, ?_⟩
      · have e : 2 * (j + 1) = (2 * j) + 2 := by omega
        rw [e]
        simpa using this.1
      · have e : 2 * (j + 1) + 1 = (2 * j + 1) + 2 := by omega
        rw [e]
        simpa using this.2

theorem decode_key_text (b : List uint8_t) : decode_hex (key_text b b.length) = some b := by
  induction b with
  | nil => rfl
  | cons x rest ih =>
    rw [List.length_cons, key_text_cons, fmt_02x_byte]
    have hv := hex_value_digitChar x
    have hk : decode_hex ([Nat.digitChar (x.val / 16), Nat.digitChar (x.val % 16)] ++
        key_text rest rest.length) =
        some (Fin.ofNat (16 * (x.val / 16) + x.val % 16) :: rest) := by
      show decode_hex (Nat.digitChar (x.val / 16) :: Nat.digitChar (x.val % 16) ::
        key_text rest rest.length) = _
      simp only [decode_hex, hv.1, hv.2, ih]
    rw [hk]
    have : (Fin.ofNat (16 * (x.val / 16) + x.val % 16) : Fin 256) = x := by
      apply Fin.ext
      simp only [Fin.ofNat, Fin.val_mk]
      omega
    rw [this]

/-- C10: the hexadecimal rendering of `print_key` is total and canonical. For every
prompt and every byte buffer `b`, `print_key` returns, and writes the prompt,
`": "`, the text `key_text b b.length` and a newline; that text has exactly
`2 * b.length` characters, all of them in `0123456789abcdef`; its characters `2i`
and `2i+1` are the digits of the high and the low nibble of `b[i]`; and decoding
it as hexadecimal gives back `b`. -/
theorem print_key_hex_canonical (prompt : CString) (b : List uint8_t) :
    (print_key prompt b b.length).result = some () ∧
    stdout_text (print_key prompt b b.length).trace =
      prompt ++ ": " ++ key_text b b.length ++ "\n" ∧
    (key_text b b.length).length = 2 * b.length ∧
    (∀ c ∈ key_text b b.length, c ∈ "0123456789abcdef".toList) ∧
    (∀ (i : Nat) (h : i < b.length),
      (key_text b b.length)[2 * i]? =
        "0123456789abcdef".toList[(b.get ⟨i, h⟩).val / 16]? ∧
      (key_text b b.length)[2 * i + 1]? =
        "0123456789abcdef".toList[(b.get ⟨i, h⟩).val % 16]?) ∧
    decode_hex (key_text b b.length) = some b := by
  refine ⟨?_, ?_, key_text_length b, key_text_lower b, key_text_nibbles b, decode_key_text b⟩
  · simp [print_key, run_bind_eq, Run.bind, emit, print_key_loop_result]
  · simp [print_key, run_bind_eq, Run.bind, emit, print_key_loop_result, stdout_text_append,
      stdout_text,
      key_text]

/-! ## Field failures abort before the device call -/

theorem local_parse_name (env : Env) (prompt name : CString) (n : Nat) :
    Local (parse_name env prompt name n) := by
  apply local_traced
  with_reducible repeat' first
    | exact silent_pure _ | exact silent_return_false | exact silent_stdout _
    | exact silent_stderr _ | exact silent_read_string _ _ _ _
    | exact silent_hex_decode _ _ _
    | apply silent_bind | intro _ | dsimp only | split

theorem local_parse_pw (env : Env) (prompt pw : CString) (n : Nat) :
    Local (parse_pw env prompt pw n) := by
  apply local_traced
  with_reducible repeat' first
    | exact silent_pure _ | exact silent_return_false | exact silent_stdout _
    | exact silent_stderr _ | exact silent_read_string _ _ _ _
    | exact silent_hex_decode _ _ _
    | apply silent_bind | intro _ | dsimp only | split

theorem local_parse_key (env : Env) (prompt key : CString) (n : Nat) :
    Local (parse_key env prompt key n) := by
  apply local_traced
  with_reducible repeat' first
    | exact silent_pure _ | exact silent_return_false | exact silent_stdout _
    | exact silent_stderr _ | exact silent_read_string _ _ _ _
    | exact silent_hex_decode _ _ _
    | apply silent_bind | intro _ | dsimp only | split

theorem local_parse_context (env : Env) (prompt context : CString) (n : Nat) :
    Local (parse_context env prompt context n) := by
  apply local_traced
  with_reducible repeat' first
    | exact silent_pure _ | exact silent_return_false | exact silent_stdout _
    | exact silent_stderr _ | exact silent_read_string _ _ _ _
    | exact silent_hex_decode _ _ _
    | apply silent_bind | intro _ | dsimp only | split

theorem local_parse_touch_policy (t : enum_touch) : Local (parse_touch_policy t) := by
  cases t <;> exact local_of_silent (silent_pure _)

theorem silent_print_key_loop (key : List uint8_t) (len : Nat) :
    Silent (print_key_loop key len) := by
  induction key generalizing len with
  | nil => cases len <;> exact silent_pure _
  | cons b rest ih =>
    cases len with
    | zero => exact silent_pure _
    | succ n => exact silent_bind (silent_stdout _) (fun _ => ih n)

theorem silent_print_key (prompt : CString) (key : List uint8_t) (len : Nat) :
    Silent (print_key prompt key len) :=
  silent_bind (silent_stdout _) fun _ =>
    silent_bind (silent_print_key_loop _ _) fun _ => silent_stdout _

theorem guarded_delete_credential (env : Env) (authkey name : CString) :
    Guarded (delete_credential env authkey name) := by
  unfold delete_credential
  with_reducible repeat' first
    | exact local_parse_key _ _ _ _ | exact local_parse_name _ _ _ _
    | exact local_parse_pw _ _ _ _ | exact local_parse_context _ _ _ _
    | exact local_parse_touch_policy _
    | exact silent_pure _ | exact silent_return_false | exact silent_stdout _
    | exact silent_stderr _ | exact silent_pbkdf2 _ _ _ _ _ _ _
    | exact silent_print_key _ _ _
    | refine guarded_device _ _ (by with_unfolding_all rfl) ?_
    | apply guarded_bind | apply local_bind | apply silent_bind
    | intro _ | dsimp only | split

theorem guarded_put_authkey (env : Env) (authkey new_authkey : CString) :
    Guarded (put_authkey env authkey new_authkey) := by
  unfold put_authkey
  with_reducible repeat' first
    | exact local_parse_key _ _ _ _ | exact local_parse_name _ _ _ _
    | exact local_parse_pw _ _ _ _ | exact local_parse_context _ _ _ _
    | exact local_parse_touch_policy _
    | exact silent_pure _ | exact silent_return_false | exact silent_stdout _
    | exact silent_stderr _ | exact silent_pbkdf2 _ _ _ _ _ _ _
    | exact silent_print_key _ _ _
    | refine guarded_device _ _ (by with_unfolding_all rfl) ?_
    | apply guarded_bind | apply local_bind | apply silent_bind
    | intro _ | dsimp only | split

theorem guarded_calculate_session_keys (env : Env) (name password context : CString) :
    Guarded (calculate_session_keys env name password context) := by
  unfold calculate_session_keys
  with_reducible repeat' first
    | exact local_parse_key _ _ _ _ | exact local_parse_name _ _ _ _
    | exact local_parse_pw _ _ _ _ | exact local_parse_context _ _ _ _
    | exact local_parse_touch_policy _
    | exact silent_pure _ | exact silent_return_false | exact silent_stdout _
    | exact silent_stderr _ | exact silent_pbkdf2 _ _ _ _ _ _ _
    | exact silent_print_key _ _ _
    | refine guarded_device _ _ (by with_unfolding_all rfl) ?_
    | apply guarded_bind | apply local_bind | apply silent_bind
    | intro _ | dsimp only | split

theorem guarded_put_credential (env : Env) (authkey name derivation_password key_enc key_mac
    password : CString) (touch_policy : enum_touch) :
    Guarded (put_credential env authkey name derivation_password key_enc key_mac password
      touch_policy) := by
  unfold put_credential
  with_reducible repeat' first
    | exact local_parse_key _ _ _ _ | exact local_parse_name _ _ _ _
    | exact local_parse_pw _ _ _ _ | exact local_parse_context _ _ _ _
    | exact local_parse_touch_policy _
    | exact silent_pure _ | exact silent_return_false | exact silent_stdout _
    | exact silent_stderr _ | exact silent_pbkdf2 _ _ _ _ _ _ _
    | exact silent_print_key _ _ _
    | refine guarded_device _ _ (by with_unfolding_all rfl) ?_
    | apply guarded_bind | apply local_bind | apply silent_bind
    | intro _ | dsimp only | split | apply local_of_silent

theorem traced_failure_recorded {α : Type} (fn prompt : CString) (m : Run α)
    (h : (traced fn prompt m).result = none) :
    Event.returned fn prompt false ∈ (traced fn prompt m).trace := by
  have hm : m.result = none := h
  show _ ∈ m.trace ++ [Event.returned fn prompt m.result.isSome]
  rw [hm]
  simp

/-- Every field parser that returns `false` records it in the trace, so that
`parser_failed` holds of any run in which a field parser failed. -/
theorem parser_failure_recorded (env : Env) (prompt text : CString) (n : Nat) :
    ((parse_name env prompt text n).result = none →
      parser_failed (parse_name env prompt text n).trace) ∧
    ((parse_pw env prompt text n).result = none →
      parser_failed (parse_pw env prompt text n).trace) ∧
    ((parse_key env prompt text n).result = none →
      parser_failed (parse_key env prompt text n).trace) ∧
    ((parse_context env prompt text n).result = none →
      parser_failed (parse_context env prompt text n).trace) :=
  ⟨fun h => ⟨_, _, traced_failure_recorded _ _ _ h⟩,
   fun h => ⟨_, _, traced_failure_recorded _ _ _ h⟩,
   fun h => ⟨_, _, traced_failure_recorded _ _ _ h⟩,
   fun h => ⟨_, _, traced_failure_recorded _ _ _ h⟩⟩

/-- C1: field failures abort before any device call, and every operation is a
single round trip. For every behaviour of the collaborators and every input,
each of `put_credential`, `delete_credential`, `put_authkey` and
`calculate_session_keys` makes at most one device call; and when one of the
field parsers it ran (`parse_key`, `parse_name`, `parse_pw`, `parse_context`)
returned `false`, it returns `false` and has made no device call. -/
theorem field_failure_aborts_before_device (env : Env) (authkey new_authkey name
    derivation_password key_enc key_mac password context : CString)
    (touch_policy : enum_touch) (op : Run Unit)
    (hop : op ∈ [put_credential env authkey name derivation_password key_enc key_mac
        password touch_policy,
      delete_credential env authkey name,
      put_authkey env authkey new_authkey,
      calculate_session_keys env name password context]) :
    (device_calls op.trace).length ≤ 1 ∧
    (parser_failed op.trace → op.returns = false ∧ device_calls op.trace = []) := by
  have key : Guarded op := by
    simp only [List.mem_cons, List.mem_singleton, List.not_mem_nil, or_false] at hop
    rcases hop with h | h | h | h <;> subst h
    · exact guarded_put_credential _ _ _ _ _ _ _ _
    · exact guarded_delete_credential _ _ _
    · exact guarded_put_authkey _ _ _
    · exact guarded_calculate_session_keys _ _ _ _
  refine ⟨key.1, fun hp => ?_⟩
  have := key.2 hp
  exact ⟨by simp [Run.returns, this.1], this.2⟩

/-- C1, at a concrete run: `delete_credential` with the authentication key text
"zz", which is not hexadecimal. `parse_key` fails, the operation returns `false`
and no device call is made. -/
theorem field_failure_aborts_before_device_witness :
    parser_failed (delete_credential (example_env .YKYHR_SUCCESS 0 [] no_args)
      "zz" "my-cred").trace ∧
    (delete_credential (example_env .YKYHR_SUCCESS 0 [] no_args)
      "zz" "my-cred").returns = false ∧
    device_calls (delete_credential (example_env .YKYHR_SUCCESS 0 [] no_args)
      "zz" "my-cred").trace = [] :=
  have hp : parser_failed (delete_credential (example_env .YKYHR_SUCCESS 0 [] no_args)
      "zz" "my-cred").trace := ⟨"parse_key", "Authentication key", by decide⟩
  ⟨hp, (field_failure_aborts_before_device (example_env .YKYHR_SUCCESS 0 [] no_args)
    "zz" [] "my-cred" [] [] [] [] [] .touch__NULL _
    (List.mem_cons_of_mem _ (List.mem_cons_self _ _))).2 hp⟩
theorem print_key_result (prompt : CString) (key : List uint8_t) (len : Nat) :
    (print_key prompt key len).result = some () := by
  simp [print_key, bind_result, emit_result, print_key_loop_result]

theorem print_key_stdout (prompt : CString) (key : List uint8_t) (len : Nat) :
    stdout_text (print_key prompt key len).trace = prompt ++ ": " ++ key_text key len ++ "\n" := by
  simp [print_key, bind_trace, emit_result, emit_trace, print_key_loop_result,
    stdout_text_append, stdout_text, key_text]

theorem print_key_loop_stderr (key : List uint8_t) (len : Nat) :
    stderr_text (print_key_loop key len).trace = [] := by
  induction key generalizing len with
  | nil => cases len <;> rfl
  | cons b rest ih =>
    cases len with
    | zero => rfl
    | succ n =>
      simp [print_key_loop, bind_trace, emit_result, emit_trace, stderr_text_append,
        stderr_text, ih]

theorem print_key_stderr (prompt : CString) (key : List uint8_t) (len : Nat) :
    stderr_text (print_key prompt key len).trace = [] := by
  simp [print_key, bind_trace, emit_result, emit_trace, print_key_loop_result,
    stderr_text_append, stderr_text, print_key_loop_stderr]

theorem print_key_device_calls (prompt : CString) (key : List uint8_t) (len : Nat) :
    device_calls (print_key prompt key len).trace = [] :=
  (silent_print_key prompt key len).1

theorem ykyh_calculate_result (env : Env) (name : CString) (context : List uint8_t)
    (context_len : Nat) (pw : CString) (a b c : Nat) :
    (ykyh_calculate env name context context_len pw a b c).result =
      some (env.ykyh_calculate name context context_len pw a b c) := rfl

theorem ykyh_calculate_trace (env : Env) (name : CString) (context : List uint8_t)
    (context_len : Nat) (pw : CString) (a b c : Nat) :
    (ykyh_calculate env name context context_len pw a b c).trace =
      [.device (.ykyh_calculate name context context_len pw a b c)] := rfl

theorem text_of_prompt (b : Prop) [Decidable b] (e f : Event)
    (he : stdout_text [e] = [] ∧ stderr_text [e] = [])
    (hf : stdout_text [f] = [] ∧ stderr_text [f] = []) :
    stdout_text ((if b then [e] else []) ++ [f]) = [] ∧
    stderr_text ((if b then [e] else []) ++ [f]) = [] := by
  split
  · constructor
    · show stdout_text ([e] ++ [f]) = []
      rw [stdout_text_append, he.1, hf.1]; rfl
    · show stderr_text ([e] ++ [f]) = []
      rw [stderr_text_append, he.2, hf.2]; rfl
  · exact hf

theorem parse_name_quiet (env : Env) (prompt name : CString) (n : Nat) (r : CString × Nat)
    (h : (parse_name env prompt name n).result = some r) :
    stdout_text (parse_name env prompt name n).trace = [] ∧
    stderr_text (parse_name env prompt name n).trace = [] := by
  rw [parse_name_ok _ _ _ _ _ h]
  exact text_of_prompt _ _ _ ⟨rfl, rfl⟩ ⟨rfl, rfl⟩

theorem parse_pw_quiet (env : Env) (prompt pw : CString) (n : Nat) (r : CString × Nat)
    (h : (parse_pw env prompt pw n).result = some r) :
    stdout_text (parse_pw env prompt pw n).trace = [] ∧
    stderr_text (parse_pw env prompt pw n).trace = [] := by
  rw [parse_pw_ok _ _ _ _ _ h]
  exact text_of_prompt _ _ _ ⟨rfl, rfl⟩ ⟨rfl, rfl⟩

theorem parse_key_quiet (env : Env) (prompt key : CString) (n : Nat)
    (r : List uint8_t × Nat) (h : (parse_key env prompt key n).result = some r) :
    stdout_text (parse_key env prompt key n).trace = [] ∧
    stderr_text (parse_key env prompt key n).trace = [] := by
  rw [(parse_key_ok _ _ _ _ _ h).1]
  exact text_of_prompt _ _ _ ⟨rfl, rfl⟩ ⟨rfl, rfl⟩

theorem parse_context_quiet (env : Env) (prompt context : CString) (n : Nat)
    (r : List uint8_t × Nat) (h : (parse_context env prompt context n).result = some r) :
    stdout_text (parse_context env prompt context n).trace = [] ∧
    stderr_text (parse_context env prompt context n).trace = [] := by
  rw [(parse_context_ok _ _ _ _ _ h).1]
  exact text_of_prompt _ _ _ ⟨rfl, rfl⟩ ⟨rfl, rfl⟩

theorem device_calls_device (c : DeviceCall) : device_calls [Event.device c] = [c] := rfl

theorem device_calls_stdout (s : CString) : device_calls [Event.stdout s] = [] := rfl

theorem device_calls_stderr (s : CString) : device_calls [Event.stderr s] = [] := rfl

theorem device_calls_nil : device_calls [] = [] := rfl

theorem stdout_text_nil : stdout_text [] = [] := rfl

theorem stderr_text_nil : stderr_text [] = [] := rfl

theorem stdout_text_stdout (s : CString) : stdout_text [Event.stdout s] = s := by
  simp [stdout_text]

theorem stdout_text_stderr (s : CString) : stdout_text [Event.stderr s] = [] := rfl

theorem stdout_text_device (c : DeviceCall) : stdout_text [Event.device c] = [] := rfl

theorem stderr_text_stderr (s : CString) : stderr_text [Event.stderr s] = s := by
  simp [stderr_text]

theorem stderr_text_stdout (s : CString) : stderr_text [Event.stdout s] = [] := rfl

theorem stderr_text_device (c : DeviceCall) : stderr_text [Event.device c] = [] := rfl

theorem bind_mk_some {α β : Type} (t : List Event) (a : α) (f : α → Run β) :
    ((⟨t, some a⟩ : Run α) >>= f) = ⟨t ++ (f a).trace, (f a).result⟩ := rfl

theorem bind_mk_none {α β : Type} (t : List Event) (f : α → Run β) :
    ((⟨t, none⟩ : Run α) >>= f) = ⟨t, none⟩ := rfl

/-! ## Runs of the parsers on a pre-supplied value -/

theorem parse_key_supplied (env : Env) (prompt key : CString) (n : Nat)
    (parsed : List uint8_t) (h0 : key ≠ []) (h1 : key.length ≤ 128)
    (hd : env.hex_decode (key ++ env.indeterminate prompt) n = some parsed)
    (hl : parsed.length = 16) :
    parse_key env prompt key n = ⟨[.returned "parse_key" prompt true], some (parsed, 16)⟩ := by
  have h2 : ¬ key.length > 128 := by omega
  have h3 : ¬ key.length = 0 := fun h => h0 (List.length_eq_zero.mp h)
  have h4 : ¬ parsed.length ≠ YKYH_KEY_LEN := fun h => h hl
  unfold parse_key traced
  simp only [h2, h3, h4, if_false, bind_trace, bind_result, pure_trace, pure_result,
    hex_decode_trace, hex_decode_result, hd, Option.bind, List.append_nil, List.nil_append,
    Option.isSome_some]
  rw [hl]

theorem parse_context_supplied (env : Env) (prompt context : CString) (n : Nat)
    (parsed : List uint8_t) (h0 : context ≠ []) (h1 : context.length ≤ 128)
    (hd : env.hex_decode (context ++ env.indeterminate prompt) n = some parsed)
    (hl : parsed.length = 8) :
    parse_context env prompt context n =
      ⟨[.returned "parse_context" prompt true], some (parsed, 8)⟩ := by
  have h2 : ¬ context.length > 128 := by omega
  have h3 : ¬ context.length = 0 := fun h => h0 (List.length_eq_zero.mp h)
  have h4 : ¬ parsed.length ≠ YKYH_CONTEXT_LEN := fun h => h hl
  unfold parse_context traced
  simp only [h2, h3, h4, if_false, bind_trace, bind_result, pure_trace, pure_result,
    hex_decode_trace, hex_decode_result, hd, Option.bind, List.append_nil, List.nil_append,
    Option.isSome_some]
  rw [hl]

theorem parse_pw_supplied (env : Env) (prompt pw : CString) (n : Nat)
    (h0 : pw ≠ []) (h1 : pw.length < n) :
    parse_pw env prompt pw n = ⟨[.returned "parse_pw" prompt true], some (pw, pw.length)⟩ := by
  have h2 : ¬ pw.length > n := by omega
  have h3 : ¬ pw.length = 0 := fun h => h0 (List.length_eq_zero.mp h)
  unfold parse_pw traced c_str
  simp only [h1, h2, h3, if_false, if_true, bind_trace, bind_result, pure_trace, pure_result,
    Option.bind, List.append_nil, List.nil_append, Option.isSome_some]

theorem parse_name_supplied (env : Env) (prompt name : CString) (n : Nat)
    (h0 : name ≠ []) (h1 : name.length < n) :
    parse_name env prompt name n =
      ⟨[.returned "parse_name" prompt true], some (name, name.length)⟩ := by
  have h2 : ¬ name.length > n := by omega
  have h3 : ¬ name.length = 0 := fun h => h0 (List.length_eq_zero.mp h)
  unfold parse_name traced c_str
  simp only [h1, h2, h3, if_false, if_true, bind_trace, bind_result, pure_trace, pure_result,
    Option.bind, List.append_nil, List.nil_append, Option.isSome_some]

theorem parse_name_too_long (env : Env) (prompt name : CString) (n : Nat)
    (h : name.length > n) :
    parse_name env prompt name n =
      ⟨[.stdout "Unable to read name, buffer too small\n",
        .returned "parse_name" prompt false], none⟩ := by
  unfold parse_name traced
  simp only [h, if_true, bind_trace, bind_result, emit_trace, emit_result,
    return_false_trace, return_false_result, Option.bind, List.append_nil,
    Option.isSome_none]
  rfl

theorem parse_touch_policy_run (touch_policy : enum_touch) :
    parse_touch_policy touch_policy = ⟨[], some (touch_flag touch_policy)⟩ := by
  cases touch_policy <;> rfl

theorem ykyh_put_run (env : Env) (key : List uint8_t) (key_len : Nat) (name : CString)
    (key_enc : List uint8_t) (key_enc_len : Nat) (key_mac : List uint8_t)
    (key_mac_len : Nat) (pw : CString) (touch_policy : uint8_t) :
    ykyh_put env key key_len name key_enc key_enc_len key_mac key_mac_len pw touch_policy =
      ⟨[.device (.ykyh_put key key_len name key_enc key_enc_len key_mac key_mac_len pw
          touch_policy)],
        some (env.ykyh_put key key_len name key_enc key_enc_len key_mac key_mac_len pw
          touch_policy)⟩ := rfl

theorem pbkdf2_run (env : Env) (pass : CString) (passlen : Nat) (salt : CString)
    (saltlen iter keylen : Nat) :
    PKCS5_PBKDF2_HMAC env pass passlen salt saltlen iter keylen =
      ⟨[.PKCS5_PBKDF2_HMAC pass passlen salt saltlen iter keylen],
        some (env.PKCS5_PBKDF2_HMAC pass passlen salt saltlen iter keylen)⟩ := rfl

theorem kdf_halves (key : { out : List uint8_t // out.length = YKYH_KEY_LEN * 2 }) :
    (key.val.take YKYH_KEY_LEN).length = 16 ∧
    ((key.val.drop YKYH_KEY_LEN).take YKYH_KEY_LEN).length = 16 := by
  have h := key.property
  simp only [YKYH_KEY_LEN] at h ⊢
  simp only [List.length_take, List.length_drop, h]
  exact ⟨rfl, rfl⟩

/-! ## Lengths of the keys and of the context passed to the device -/

theorem calls_of_local {α : Type} (P : DeviceCall → Prop) {m : Run α} (h : Local m) :
    Calls P m := by
  intro c hc
  rw [h.1] at hc
  simp at hc

theorem calls_bind {α β : Type} {P : DeviceCall → Prop} {m : Run α} {f : α → Run β}
    (hm : Calls P m) (hf : ∀ a, m.result = some a → Calls P (f a)) : Calls P (m >>= f) := by
  intro c hc
  rw [bind_trace, device_calls_append] at hc
  rcases List.mem_append.mp hc with h | h
  · exact hm c h
  · cases hr : m.result with
    | none => rw [hr] at h; simp [device_calls] at h
    | some a => rw [hr] at h; exact hf a hr c h

theorem calls_bind_local {α β : Type} {P : DeviceCall → Prop} {m : Run α} {f : α → Run β}
    (hm : Local m) (hf : ∀ a, Calls P (f a)) : Calls P (m >>= f) :=
  calls_bind (calls_of_local P hm) fun a _ => hf a

theorem calls_bind_parse_key {β : Type} {P : DeviceCall → Prop} (env : Env)
    (prompt key : CString) (n : Nat) {f : List uint8_t × Nat → Run β}
    (hf : ∀ k : List uint8_t, k.length = 16 → Calls P (f (k, 16))) :
    Calls P (parse_key env prompt key n >>= f) := by
  apply calls_bind (calls_of_local P (local_parse_key _ _ _ _))
  rintro ⟨k, l⟩ hr
  have h := parse_key_ok _ _ _ _ _ hr
  have hl : l = 16 := h.2.2
  subst hl
  exact hf k h.2.1

theorem calls_bind_parse_context {β : Type} {P : DeviceCall → Prop} (env : Env)
    (prompt context : CString) (n : Nat) {f : List uint8_t × Nat → Run β}
    (hf : ∀ k : List uint8_t, k.length = 8 → Calls P (f (k, 8))) :
    Calls P (parse_context env prompt context n >>= f) := by
  apply calls_bind (calls_of_local P (local_parse_context _ _ _ _))
  rintro ⟨k, l⟩ hr
  have h := parse_context_ok _ _ _ _ _ hr
  have hl : l = 8 := h.2.2
  subst hl
  exact hf k h.2.1

theorem calls_device {α β : Type} {P : DeviceCall → Prop} {m : Run α} (c : DeviceCall)
    (a : α) {f : α → Run β} (hm : m = ⟨[.device c], some a⟩) (hc : P c)
    (hf : Silent (f a)) : Calls P (m >>= f) := by
  subst hm
  intro d hd
  have e : device_calls ([Event.device c] ++ (f a).trace) = [c] := by
    rw [device_calls_append, hf.1]; rfl
  have hd2 : d ∈ device_calls ([Event.device c] ++ (f a).trace) := hd
  rw [e] at hd2
  rw [List.mem_singleton.mp hd2]
  exact hc

theorem calls_bind_pure {α β : Type} {P : DeviceCall → Prop} (a : α) {f : α → Run β}
    (hf : Calls P (f a)) : Calls P ((pure a : Run α) >>= f) :=
  calls_bind (calls_of_local P (local_of_silent (silent_pure a))) fun b hb => by
    have e : a = b := Option.some.inj hb
    subst e
    exact hf

theorem calls_bind_return_false {α β : Type} {P : DeviceCall → Prop} {f : α → Run β} :
    Calls P ((return_false : Run α) >>= f) :=
  calls_bind (calls_of_local P (local_of_silent silent_return_false)) fun b hb => by
    cases hb

theorem calls_delete_credential (env : Env) (authkey name : CString) :
    Calls (fun c => ∃ key name_parsed, c = .ykyh_delete key 16 name_parsed ∧ key.length = 16)
      (delete_credential env authkey name) := by
  unfold delete_credential
  with_reducible repeat' first
    | exact local_parse_key _ _ _ _ | exact local_parse_name _ _ _ _
    | exact local_parse_pw _ _ _ _ | exact local_parse_context _ _ _ _
    | exact local_parse_touch_policy _
    | exact local_of_silent (silent_pbkdf2 _ _ _ _ _ _ _)
    | exact local_of_silent (silent_stderr _)
    | exact silent_pure _ | exact silent_return_false | exact silent_stdout _
    | exact silent_stderr _ | exact silent_print_key _ _ _
    | refine calls_device _ _ (by with_unfolding_all rfl) ?_ ?_
    | apply calls_bind_parse_key | apply calls_bind_parse_context
    | apply calls_bind_pure | exact calls_bind_return_false
    | apply calls_bind_local | apply silent_bind
    | intro _ | dsimp only | split
  exact ⟨_, _, rfl, by assumption⟩

theorem calls_put_authkey (env : Env) (authkey new_authkey : CString) :
    Calls (fun c => ∃ key new_key, c = .ykyh_put_authkey key 16 new_key 16 ∧
        key.length = 16 ∧ new_key.length = 16)
      (put_authkey env authkey new_authkey) := by
  unfold put_authkey
  with_reducible repeat' first
    | exact local_parse_key _ _ _ _ | exact local_parse_name _ _ _ _
    | exact local_parse_pw _ _ _ _ | exact local_parse_context _ _ _ _
    | exact local_parse_touch_policy _
    | exact local_of_silent (silent_pbkdf2 _ _ _ _ _ _ _)
    | exact local_of_silent (silent_stderr _)
    | exact silent_pure _ | exact silent_return_false | exact silent_stdout _
    | exact silent_stderr _ | exact silent_print_key _ _ _
    | refine calls_device _ _ (by with_unfolding_all rfl) ?_ ?_
    | apply calls_bind_parse_key | apply calls_bind_parse_context
    | apply calls_bind_pure | exact calls_bind_return_false
    | apply calls_bind_local | apply silent_bind
    | intro _ | dsimp only | split
  exact ⟨_, _, rfl, by assumption, by assumption⟩

theorem calls_calculate_session_keys (env : Env) (name password context : CString) :
    Calls (fun c => ∃ name_parsed context_parsed pw_parsed,
        c = .ykyh_calculate name_parsed context_parsed 8 pw_parsed 16 16 16 ∧
        context_parsed.length = 8)
      (calculate_session_keys env name password context) := by
  unfold calculate_session_keys
  with_reducible repeat' first
    | exact local_parse_key _ _ _ _ | exact local_parse_name _ _ _ _
    | exact local_parse_pw _ _ _ _ | exact local_parse_context _ _ _ _
    | exact local_parse_touch_policy _
    | exact local_of_silent (silent_pbkdf2 _ _ _ _ _ _ _)
    | exact local_of_silent (silent_stderr _)
    | exact silent_pure _ | exact silent_return_false | exact silent_stdout _
    | exact silent_stderr _ | exact silent_print_key _ _ _
    | refine calls_device _ _ (by with_unfolding_all rfl) ?_ ?_
    | apply calls_bind_parse_key | apply calls_bind_parse_context
    | apply calls_bind_pure | exact calls_bind_return_false
    | apply calls_bind_local | apply silent_bind
    | intro _ | dsimp only | split
  exact ⟨_, _, _, rfl, by assumption⟩

theorem calls_put_credential (env : Env) (authkey name derivation_password key_enc
    key_mac password : CString) (touch_policy : enum_touch) :
    Calls (fun c => ∃ key name_parsed enc mac pw_parsed touch,
        c = .ykyh_put key 16 name_parsed enc 16 mac 16 pw_parsed touch ∧
        key.length = 16 ∧ enc.length = 16 ∧ mac.length = 16)
      (put_credential env authkey name derivation_password key_enc key_mac password
        touch_policy) := by
  unfold put_credential
  with_reducible repeat' first
    | exact local_parse_key _ _ _ _ | exact local_parse_name _ _ _ _
    | exact local_parse_pw _ _ _ _ | exact local_parse_context _ _ _ _
    | exact local_parse_touch_policy _
    | exact local_of_silent (silent_pbkdf2 _ _ _ _ _ _ _)
    | exact local_of_silent (silent_stderr _)
    | exact silent_pure _ | exact silent_return_false | exact silent_stdout _
    | exact silent_stderr _ | exact silent_print_key _ _ _
    | refine calls_device _ _ (by with_unfolding_all rfl) ?_ ?_
    | apply calls_bind_parse_key | apply calls_bind_parse_context
    | apply calls_bind_pure | exact calls_bind_return_false
    | apply calls_bind_local | apply silent_bind
    | intro _ | dsimp only | split
  all_goals first
    | exact ⟨_, _, _, _, _, _, rfl, by assumption, by assumption, by assumption⟩
    | exact ⟨_, _, _, _, _, _, rfl, by assumption, (kdf_halves _).1, (kdf_halves _).2⟩

/-- C2: lengths of what reaches the device. For every behaviour of the
collaborators (whatever `hex_decode` decodes) and every input: every device call
of `put_credential` is a `ykyh_put` whose authentication key, encryption key and
MAC key are 16 bytes long and passed with length 16; every device call of
`delete_credential` is a `ykyh_delete` with a 16-byte key; every device call of
`put_authkey` is a `ykyh_put_authkey` with two 16-byte keys; every device call of
`calculate_session_keys` is a `ykyh_calculate` with an 8-byte context. And
`parse_key` (`parse_context`) returns `true` only with exactly 16 (8) decoded
bytes: a text that decodes to fewer or more makes it fail. -/
theorem device_call_key_lengths (env : Env) (authkey new_authkey name derivation_password
    key_enc key_mac password context : CString) (touch_policy : enum_touch) :
    (∀ c ∈ device_calls (put_credential env authkey name derivation_password key_enc
        key_mac password touch_policy).trace,
      ∃ key name_parsed enc mac pw_parsed touch,
        c = .ykyh_put key 16 name_parsed enc 16 mac 16 pw_parsed touch ∧
        key.length = 16 ∧ enc.length = 16 ∧ mac.length = 16) ∧
    (∀ c ∈ device_calls (delete_credential env authkey name).trace,
      ∃ key name_parsed, c = .ykyh_delete key 16 name_parsed ∧ key.length = 16) ∧
    (∀ c ∈ device_calls (put_authkey env authkey new_authkey).trace,
      ∃ key new_key, c = .ykyh_put_authkey key 16 new_key 16 ∧
        key.length = 16 ∧ new_key.length = 16) ∧
    (∀ c ∈ device_calls (calculate_session_keys env name password context).trace,
      ∃ name_parsed context_parsed pw_parsed,
        c = .ykyh_calculate name_parsed context_parsed 8 pw_parsed 16 16 16 ∧
        context_parsed.length = 8) ∧
    (∀ (prompt text : CString) (cap : Nat) (parsed : List uint8_t) (parsed_len : Nat),
      (parse_key env prompt text cap).result = some (parsed, parsed_len) →
        parsed.length = 16 ∧ parsed_len = 16) ∧
    (∀ (prompt text : CString) (cap : Nat) (parsed : List uint8_t) (parsed_len : Nat),
      (parse_context env prompt text cap).result = some (parsed, parsed_len) →
        parsed.length = 8 ∧ parsed_len = 8) :=
  ⟨calls_put_credential _ _ _ _ _ _ _ _, calls_delete_credential _ _ _,
   calls_put_authkey _ _ _, calls_calculate_session_keys _ _ _ _,
   fun _ _ _ _ _ h => (parse_key_ok _ _ _ _ _ h).2,
   fun _ _ _ _ _ h => (parse_context_ok _ _ _ _ _ h).2⟩
/-! ## Oversize passwords and names -/

theorem refused_bind {α β : Type} {m : Run α} {f : α → Run β}
    (hm : Local m) (hf : ∀ a, m.result = some a → Refused (f a)) : Refused (m >>= f) := by
  cases hr : m.result with
  | none =>
    refine ⟨?_, ?_⟩
    · rw [bind_result, hr]; rfl
    · rw [bind_trace, hr, device_calls_append, hm.1]; rfl
  | some a =>
    refine ⟨?_, ?_⟩
    · rw [bind_result, hr]; exact (hf a hr).1
    · rw [bind_trace, hr, device_calls_append, hm.1]; exact (hf a hr).2

theorem refused_bind_local {α β : Type} {m : Run α} {f : α → Run β}
    (hm : Local m) (hf : ∀ a, Refused (f a)) : Refused (m >>= f) :=
  refused_bind hm fun a _ => hf a

theorem refused_of_none {α β : Type} {m : Run α} {f : α → Run β}
    (hm : Local m) (hr : m.result = none) : Refused (m >>= f) :=
  refused_bind hm fun a ha => by rw [hr] at ha; cases ha

theorem refused_return_false_bind {α β : Type} {f : α → Run β} :
    Refused ((return_false : Run α) >>= f) :=
  refused_of_none (local_of_silent silent_return_false) rfl

theorem parse_pw_supplied_length (env : Env) (prompt pw : CString) (n : Nat)
    (h0 : pw.length ≠ 0) (r : CString × Nat)
    (h : (parse_pw env prompt pw n).result = some r) : pw.length ≤ r.2 := by
  unfold parse_pw at h
  rw [traced_result] at h
  by_cases h1 : pw.length > n
  · simp [h1, bind_result, return_false_result, emit_result] at h
  · simp only [h1, h0, if_false, bind_result, pure_result, Option.bind,
      Option.some.injEq] at h
    subst h
    show pw.length ≤ (c_str n pw (env.indeterminate prompt)).length
    unfold c_str
    split
    · exact Nat.le_refl _
    · rw [List.length_append]; omega

theorem refused_bind_parse_pw_long {β : Type} (env : Env) (prompt pw : CString) (n : Nat)
    {f : CString × Nat → Run β} (hl : pw.length > 16)
    (hf : ∀ (parsed : CString) (len : Nat), len > 16 → Refused (f (parsed, len))) :
    Refused (parse_pw env prompt pw n >>= f) :=
  refused_bind (local_parse_pw _ _ _ _) fun r hr => by
    have h := parse_pw_supplied_length env prompt pw n (by omega) r hr
    exact hf r.1 r.2 (by omega)

theorem put_credential_refuses_long_password (env : Env) (authkey name
    derivation_password key_enc key_mac password : CString) (touch_policy : enum_touch)
    (hl : password.length > 16) :
    Refused (put_credential env authkey name derivation_password key_enc key_mac password
      touch_policy) := by
  unfold put_credential
  with_reducible repeat' first
    | exact local_parse_key _ _ _ _ | exact local_parse_name _ _ _ _
    | exact local_parse_pw _ _ _ _
    | exact local_of_silent (silent_pbkdf2 _ _ _ _ _ _ _)
    | exact local_of_silent (silent_stderr _)
    | exact local_of_silent (silent_pure _)
    | exact refused_return_false_bind
    | exact absurd (by assumption : _ > 16) (by with_unfolding_all assumption)
    | refine refused_bind_parse_pw_long _ _ _ _ hl ?_
    | apply refused_bind_local
    | intro _ | dsimp only | split

/-- C3: a Credential Password longer than 16 bytes. `put_credential` refuses it
for every input and every behaviour of the collaborators: it returns `false`
and makes no device call. `calculate_session_keys` does not: at name "my-cred",
context 8 zero bytes and the 17-byte password `password_17`, `parse_pw` accepts
the password, the operation calls `ykyh_calculate` with the 17 bytes and returns
the success of the device. -/
theorem long_password_refused_by_put_sent_by_calculate :
    (∀ (env : Env) (authkey name derivation_password key_enc key_mac password : CString)
      (touch_policy : enum_touch), password.length > 16 →
      (put_credential env authkey name derivation_password key_enc key_mac password
        touch_policy).returns = false ∧
      device_calls (put_credential env authkey name derivation_password key_enc key_mac
        password touch_policy).trace = []) ∧
    password_17.length = 17 ∧
    (parse_pw (example_env .YKYHR_SUCCESS 0 [] no_args) "Password" password_17
      (YKYH_PW_LEN + 2)).result = some (password_17, 17) ∧
    device_calls (calculate_session_keys (example_env .YKYHR_SUCCESS 0 [] no_args)
      "my-cred" password_17 zero_context_hex).trace =
      [.ykyh_calculate "my-cred".toList (List.replicate 8 0) 8 password_17 16 16 16] ∧
    (calculate_session_keys (example_env .YKYHR_SUCCESS 0 [] no_args)
      "my-cred" password_17 zero_context_hex).returns = true := by
  refine ⟨?_, by decide, by decide, by decide, by decide⟩
  intro env authkey name derivation_password key_enc key_mac password touch_policy hl
  have h := put_credential_refuses_long_password env authkey name derivation_password
    key_enc key_mac password touch_policy hl
  exact ⟨by simp [Run.returns, h.1], h.2⟩

theorem refused_of_long_name {β : Type} (env : Env) (name : CString)
    {f : CString × Nat → Run β} (hl : name.length > YKYH_MAX_NAME_LEN + 2) :
    Refused (parse_name env "Name" name (YKYH_MAX_NAME_LEN + 2) >>= f) :=
  refused_of_none (local_parse_name _ _ _ _)
    (congrArg Run.result (parse_name_too_long env "Name" name _ hl))

/-- C4, the counterexample: a pre-supplied name of 65 bytes is longer than the
maximum of 64, yet `parse_name` with the buffer of `YKYH_MAX_NAME_LEN + 2` bytes
accepts it, and `delete_credential` passes it to `ykyh_delete` and succeeds. -/
theorem name_of_65_bytes_accepted :
    name_65.length = 65 ∧
    (parse_name (example_env .YKYHR_SUCCESS 0 [] no_args) "Name" name_65
      (YKYH_MAX_NAME_LEN + 2)).result = some (name_65, 65) ∧
    device_calls (delete_credential (example_env .YKYHR_SUCCESS 0 [] no_args)
      zero_key_hex name_65).trace = [.ykyh_delete (List.replicate 16 0) 16 name_65] ∧
    (delete_credential (example_env .YKYHR_SUCCESS 0 [] no_args)
      zero_key_hex name_65).returns = true := by
  refine ⟨by decide, by decide, by decide, by decide⟩

/-- C4, amended: a pre-supplied name longer than the buffer of
`YKYH_MAX_NAME_LEN + 2 = 66` bytes makes `parse_name` fail with the
buffer-too-small message, and each of `put_credential`, `delete_credential` and
`calculate_session_keys` then returns `false` without any device call; a
pre-supplied name of 1 to 65 bytes is accepted by `parse_name` verbatim. -/
theorem name_longer_than_buffer_refused (env : Env) (authkey name derivation_password
    key_enc key_mac password context : CString) (touch_policy : enum_touch)
    (hl : name.length > 66) :
    parse_name env "Name" name (YKYH_MAX_NAME_LEN + 2) =
      ⟨[.stdout "Unable to read name, buffer too small\n",
        .returned "parse_name" "Name" false], none⟩ ∧
    ((put_credential env authkey name derivation_password key_enc key_mac password
        touch_policy).returns = false ∧
      device_calls (put_credential env authkey name derivation_password key_enc key_mac
        password touch_policy).trace = []) ∧
    ((delete_credential env authkey name).returns = false ∧
      device_calls (delete_credential env authkey name).trace = []) ∧
    ((calculate_session_keys env name password context).returns = false ∧
      device_calls (calculate_session_keys env name password context).trace = []) ∧
    (∀ short : CString, short ≠ [] → short.length ≤ 65 →
      parse_name env "Name" short (YKYH_MAX_NAME_LEN + 2) =
        ⟨[.returned "parse_name" "Name" true], some (short, short.length)⟩) := by
  have hl2 : name.length > YKYH_MAX_NAME_LEN + 2 := hl
  have h1 : Refused (put_credential env authkey name derivation_password key_enc key_mac
      password touch_policy) := by
    unfold put_credential
    apply refused_bind_local (local_parse_key _ _ _ _)
    intro a
    exact refused_of_long_name env name hl2
  have h2 : Refused (delete_credential env authkey name) := by
    unfold delete_credential
    apply refused_bind_local (local_parse_key _ _ _ _)
    intro a
    exact refused_of_long_name env name hl2
  have h3 : Refused (calculate_session_keys env name password context) := by
    unfold calculate_session_keys
    exact refused_of_long_name env name hl2
  refine ⟨parse_name_too_long env "Name" name _ hl2, ⟨?_, h1.2⟩, ⟨?_, h2.2⟩, ⟨?_, h3.2⟩, ?_⟩
  · simp [Run.returns, h1.1]
  · simp [Run.returns, h2.1]
  · simp [Run.returns, h3.1]
  · intro short hs0 hs1
    exact parse_name_supplied env "Name" short _ hs0
      (by simp only [YKYH_MAX_NAME_LEN]; omega)

/-- C4, amended, at a name of 67 bytes: `delete_credential` returns `false` and
makes no device call. -/
theorem name_longer_than_buffer_refused_witness :
    (delete_credential (example_env .YKYHR_SUCCESS 0 [] no_args) zero_key_hex
      name_67).returns = false ∧
    device_calls (delete_credential (example_env .YKYHR_SUCCESS 0 [] no_args) zero_key_hex
      name_67).trace = [] :=
  (name_longer_than_buffer_refused (example_env .YKYHR_SUCCESS 0 [] no_args) zero_key_hex
    name_67 [] [] [] [] [] .touch__NULL (by decide)).2.2.1
/-! ## `put_credential`: explicit keys and derived keys -/

/-- C5: explicit keys take precedence over the Derivation Password. In
`put_credential`, whatever the Derivation Password (in particular a non-empty
one), when the explicit encryption key and MAC key are both non-empty texts that
`hex_decode` decodes to 16 bytes each, and the authentication key, the name and
the Credential Password are accepted: the run consists of the five field parsers
(authentication key, name, encryption key, MAC key, Credential Password), the
one call of `ykyh_put` and its report; no event of the run is a call of the key
derivation function, a prompt for the Derivation Password or a return of its
parser; and the `ykyh_put` call receives exactly the two decoded keys. -/
theorem put_credential_explicit_keys (env : Env) (authkey name derivation_password
    key_enc key_mac password : CString) (touch_policy : enum_touch)
    (authkey_parsed enc mac : List uint8_t) (name_parsed pw_parsed : CString)
    (la ln lp : Nat) (rc : ykyh_rc) (retries : uint8_t)
    (ha : (parse_key env "Authentication key" authkey 16).result =
      some (authkey_parsed, la))
    (hn : (parse_name env "Name" name (64 + 2)).result = some (name_parsed, ln))
    (he0 : key_enc ≠ []) (he1 : key_enc.length ≤ 128)
    (hed : env.hex_decode (key_enc ++ env.indeterminate "Encryption key") 16 = some enc)
    (hel : enc.length = 16)
    (hm0 : key_mac ≠ []) (hm1 : key_mac.length ≤ 128)
    (hmd : env.hex_decode (key_mac ++ env.indeterminate "MAC key") 16 = some mac)
    (hml : mac.length = 16)
    (hp : (parse_pw env "Credential Password (max 16 characters)" password (16 + 2)).result =
      some (pw_parsed, lp))
    (hlp : lp ≤ 16)
    (hd : env.ykyh_put authkey_parsed 16 name_parsed enc 16 mac 16 pw_parsed
      (touch_flag touch_policy) = (rc, retries)) :
    (put_credential env authkey name derivation_password key_enc key_mac password
        touch_policy).trace =
      (parse_key env "Authentication key" authkey 16).trace ++
      (parse_name env "Name" name (64 + 2)).trace ++
      [.returned "parse_key" "Encryption key" true,
       .returned "parse_key" "MAC key" true] ++
      (parse_pw env "Credential Password (max 16 characters)" password (16 + 2)).trace ++
      [.device (.ykyh_put authkey_parsed 16 name_parsed enc 16 mac 16 pw_parsed
        (touch_flag touch_policy)),
       if rc = .YKYHR_SUCCESS then .stdout "Credential successfully stored\n"
       else .stderr ("Unable to store credential: " ++ env.ykyh_strerror rc ++ ", " ++
          fmt_d retries.val ++ " retries left\n")] ∧
    (∀ e ∈ (put_credential env authkey name derivation_password key_enc key_mac password
        touch_policy).trace, derivation_event e = false) ∧
    device_calls (put_credential env authkey name derivation_password key_enc key_mac
        password touch_policy).trace =
      [.ykyh_put authkey_parsed 16 name_parsed enc 16 mac 16 pw_parsed
        (touch_flag touch_policy)] ∧
    ((put_credential env authkey name derivation_password key_enc key_mac password
        touch_policy).returns = true ↔ rc = .YKYHR_SUCCESS) := by
  have hla : la = 16 := (parse_key_ok _ _ _ _ _ ha).2.2
  subst hla
  have ha2 : (parse_key env "Authentication key" authkey YKYH_KEY_LEN).result =
      some (authkey_parsed, 16) := ha
  have hn2 : (parse_name env "Name" name (YKYH_MAX_NAME_LEN + 2)).result =
      some (name_parsed, ln) := hn
  have hp2 : (parse_pw env "Credential Password (max 16 characters)" password
      (YKYH_PW_LEN + 2)).result = some (pw_parsed, lp) := hp
  have he := parse_key_supplied env "Encryption key" key_enc YKYH_KEY_LEN enc he0 he1 hed hel
  have hm := parse_key_supplied env "MAC key" key_mac YKYH_KEY_LEN mac hm0 hm1 hmd hml
  have hc : ¬ (key_mac.length = 0 ∧ key_enc.length = 0) :=
    fun h => hm0 (List.length_eq_zero.mp h.1)
  have hlp2 : ¬ lp > YKYH_PW_LEN := by simp only [YKYH_PW_LEN]; omega
  have run : put_credential env authkey name derivation_password key_enc key_mac password
      touch_policy =
      ⟨(parse_key env "Authentication key" authkey 16).trace ++
        (parse_name env "Name" name (64 + 2)).trace ++
        [.returned "parse_key" "Encryption key" true,
         .returned "parse_key" "MAC key" true] ++
        (parse_pw env "Credential Password (max 16 characters)" password (16 + 2)).trace ++
        [.device (.ykyh_put authkey_parsed 16 name_parsed enc 16 mac 16 pw_parsed
          (touch_flag touch_policy)),
         if rc = .YKYHR_SUCCESS then .stdout "Credential successfully stored\n"
         else .stderr ("Unable to store credential: " ++ env.ykyh_strerror rc ++ ", " ++
            fmt_d retries.val ++ " retries left\n")],
       if rc = .YKYHR_SUCCESS then some () else none⟩ := by
    unfold put_credential
    by_cases h1 : rc = .YKYHR_SUCCESS
    · simp only [bind_of_result _ ha2, bind_of_result _ hn2, hc, if_false, if_true,
        bind_mk_some, bind_mk_none, run_pure_eq, he, hm, bind_of_result _ hp2, hlp2,
        parse_touch_policy_run, ykyh_put_run, hd, h1, ne_eq, not_true_eq_false, emit,
        List.nil_append, List.append_nil, List.append_assoc, List.cons_append]
      rfl
    · simp only [bind_of_result _ ha2, bind_of_result _ hn2, hc, if_false, if_true,
        bind_mk_some, bind_mk_none, run_pure_eq, he, hm, bind_of_result _ hp2, hlp2,
        parse_touch_policy_run, ykyh_put_run, hd, h1, ne_eq, not_false_eq_true, emit,
        return_false, List.nil_append, List.append_nil, List.append_assoc, List.cons_append]
      rfl
  have ta := (parse_key_ok _ _ _ _ _ ha).1
  have tn := parse_name_ok _ _ _ _ _ hn
  have tp := parse_pw_ok _ _ _ _ _ hp
  have da := (local_parse_key env "Authentication key" authkey 16).1
  have dn := (local_parse_name env "Name" name (64 + 2)).1
  have dp := (local_parse_pw env "Credential Password (max 16 characters)" password
    (16 + 2)).1
  rw [run]
  refine ⟨rfl, ?_, ?_, ?_⟩
  · have hq : ∀ (b : Prop) [Decidable b] (x y : Event), derivation_event x = false →
        derivation_event y = false →
        ∀ e ∈ (if b then [x] else []) ++ [y], derivation_event e = false := by
      intro b _ x y hx hy e he
      split at he
      · simp only [List.singleton_append, List.mem_cons, List.mem_singleton,
          List.not_mem_nil, or_false] at he
        rcases he with he | he <;> subst he <;> assumption
      · simp only [List.nil_append, List.mem_singleton] at he
        subst he; assumption
    simp only [List.forall_mem_append]
    refine ⟨⟨⟨⟨?_, ?_⟩, ?_⟩, ?_⟩, ?_⟩
    · rw [ta]; exact hq _ _ _ (by rfl) (by rfl)
    · rw [tn]; exact hq _ _ _ (by rfl) (by rfl)
    · intro e he
      simp only [List.mem_cons, List.mem_singleton, List.not_mem_nil, or_false] at he
      rcases he with he | he <;> subst he <;> rfl
    · rw [tp]; exact hq _ _ _ (by rfl) (by rfl)
    · intro e he
      simp only [List.mem_cons, List.mem_singleton, List.not_mem_nil, or_false] at he
      rcases he with he | he
      · subst he; rfl
      · subst he
        by_cases h1 : rc = .YKYHR_SUCCESS
        · rw [if_pos h1]; rfl
        · rw [if_neg h1]; rfl
  · simp only [device_calls_append, da, dn, dp, List.nil_append, List.append_nil]
    by_cases h1 : rc = .YKYHR_SUCCESS
    · rw [if_pos h1]; rfl
    · rw [if_neg h1]; rfl
  · by_cases h1 : rc = .YKYHR_SUCCESS
    · simp [Run.returns, h1]
    · simp [Run.returns, h1]

/-- C5, at a concrete input: derivation password "hunter2" together with two
explicit keys of 16 zero bytes. The one device call is `ykyh_put` with the two
decoded keys, and the run holds no derivation event. -/
theorem put_credential_explicit_keys_witness :
    (∀ e ∈ (put_credential (example_env .YKYHR_SUCCESS 0 [] no_args) zero_key_hex
        "my-cred" "hunter2" zero_key_hex zero_key_hex "pw" .touch_arg_on).trace,
      derivation_event e = false) ∧
    device_calls (put_credential (example_env .YKYHR_SUCCESS 0 [] no_args) zero_key_hex
        "my-cred" "hunter2" zero_key_hex zero_key_hex "pw" .touch_arg_on).trace =
      [.ykyh_put (List.replicate 16 0) 16 "my-cred".toList (List.replicate 16 0) 16
        (List.replicate 16 0) 16 "pw".toList 1] :=
  ⟨(put_credential_explicit_keys (example_env .YKYHR_SUCCESS 0 [] no_args) zero_key_hex
      "my-cred" "hunter2" zero_key_hex zero_key_hex "pw" .touch_arg_on
      (List.replicate 16 0) (List.replicate 16 0) (List.replicate 16 0) "my-cred" "pw"
      16 7 2 .YKYHR_SUCCESS 0 (by decide) (by decide) (by decide) (by decide) (by decide)
      (by decide) (by decide) (by decide) (by decide) (by decide) (by decide) (by decide)
      rfl).2.1,
   (put_credential_explicit_keys (example_env .YKYHR_SUCCESS 0 [] no_args) zero_key_hex
      "my-cred" "hunter2" zero_key_hex zero_key_hex "pw" .touch_arg_on
      (List.replicate 16 0) (List.replicate 16 0) (List.replicate 16 0) "my-cred" "pw"
      16 7 2 .YKYHR_SUCCESS 0 (by decide) (by decide) (by decide) (by decide) (by decide)
      (by decide) (by decide) (by decide) (by decide) (by decide) (by decide) (by decide)
      rfl).2.2.1⟩
/-- C6: keys derived from the Derivation Password. In `put_credential` with both
explicit keys empty, a pre-supplied Derivation Password `p` of 1 to 255 bytes,
and an authentication key, a name and a Credential Password that are accepted:
when the key derivation over `p`, the fixed salt and the fixed iteration count
returns 1 with the 32 bytes `k`, the run is the parsers, one call of the key
derivation, exactly one device call `ykyh_put` and its report; the encryption key
passed is `k[0..16)`, the MAC key is `k[16..32)`, both 16 bytes long and
together `k`; the touch flag is 0 for a touch policy that is off or not given
and 1 for one that is on; and the operation returns `true` exactly when the
device reports success. -/
theorem put_credential_derived_keys (env : Env) (authkey name derivation_password
    password : CString) (touch_policy : enum_touch)
    (authkey_parsed : List uint8_t) (name_parsed pw_parsed : CString)
    (la ln lp : Nat) (k : { out : List uint8_t // out.length = YKYH_KEY_LEN * 2 })
    (rc : ykyh_rc) (retries : uint8_t)
    (ha : (parse_key env "Authentication key" authkey 16).result =
      some (authkey_parsed, la))
    (hn : (parse_name env "Name" name (64 + 2)).result = some (name_parsed, ln))
    (hd0 : derivation_password ≠ []) (hd1 : derivation_password.length ≤ 255)
    (hk : env.PKCS5_PBKDF2_HMAC derivation_password derivation_password.length
      env.YKYH_DEFAULT_SALT env.YKYH_DEFAULT_SALT.length env.YKYH_DEFAULT_ITERS
      (YKYH_KEY_LEN * 2) = (1, k))
    (hp : (parse_pw env "Credential Password (max 16 characters)" password (16 + 2)).result =
      some (pw_parsed, lp))
    (hlp : lp ≤ 16)
    (hd : env.ykyh_put authkey_parsed 16 name_parsed (k.val.take 16) 16
      ((k.val.drop 16).take 16) 16 pw_parsed (touch_flag touch_policy) = (rc, retries)) :
    (put_credential env authkey name derivation_password [] [] password touch_policy).trace =
      (parse_key env "Authentication key" authkey 16).trace ++
      (parse_name env "Name" name (64 + 2)).trace ++
      [.returned "parse_pw" "Derivation password" true,
       .PKCS5_PBKDF2_HMAC derivation_password derivation_password.length
         env.YKYH_DEFAULT_SALT env.YKYH_DEFAULT_SALT.length env.YKYH_DEFAULT_ITERS 32] ++
      (parse_pw env "Credential Password (max 16 characters)" password (16 + 2)).trace ++
      [.device (.ykyh_put authkey_parsed 16 name_parsed (k.val.take 16) 16
        ((k.val.drop 16).take 16) 16 pw_parsed (touch_flag touch_policy)),
       if rc = .YKYHR_SUCCESS then .stdout "Credential successfully stored\n"
       else .stderr ("Unable to store credential: " ++ env.ykyh_strerror rc ++ ", " ++
          fmt_d retries.val ++ " retries left\n")] ∧
    device_calls (put_credential env authkey name derivation_password [] [] password
        touch_policy).trace =
      [.ykyh_put authkey_parsed 16 name_parsed (k.val.take 16) 16
        ((k.val.drop 16).take 16) 16 pw_parsed (touch_flag touch_policy)] ∧
    (k.val.take 16).length = 16 ∧ ((k.val.drop 16).take 16).length = 16 ∧
    k.val.take 16 ++ (k.val.drop 16).take 16 = k.val ∧
    (touch_flag .touch__NULL = 0 ∧ touch_flag .touch_arg_off = 0 ∧
      touch_flag .touch_arg_on = 1) ∧
    ((put_credential env authkey name derivation_password [] [] password
        touch_policy).returns = true ↔ rc = .YKYHR_SUCCESS) := by
  have hla : la = 16 := (parse_key_ok _ _ _ _ _ ha).2.2
  subst hla
  have ha2 : (parse_key env "Authentication key" authkey YKYH_KEY_LEN).result =
      some (authkey_parsed, 16) := ha
  have hn2 : (parse_name env "Name" name (YKYH_MAX_NAME_LEN + 2)).result =
      some (name_parsed, ln) := hn
  have hp2 : (parse_pw env "Credential Password (max 16 characters)" password
      (YKYH_PW_LEN + 2)).result = some (pw_parsed, lp) := hp
  have hdp := parse_pw_supplied env "Derivation password" derivation_password 256 hd0
    (by omega)
  have hc : (([] : CString).length = 0 ∧ ([] : CString).length = 0) := ⟨rfl, rfl⟩
  have hl0 : ¬ derivation_password.length = 0 := fun h => hd0 (List.length_eq_zero.mp h)
  have hlp2 : ¬ lp > YKYH_PW_LEN := by simp only [YKYH_PW_LEN]; omega
  have hd2 : env.ykyh_put authkey_parsed 16 name_parsed (k.val.take YKYH_KEY_LEN)
      YKYH_KEY_LEN ((k.val.drop YKYH_KEY_LEN).take YKYH_KEY_LEN) YKYH_KEY_LEN pw_parsed
      (touch_flag touch_policy) = (rc, retries) := hd
  have run : put_credential env authkey name derivation_password [] [] password
      touch_policy =
      ⟨(parse_key env "Authentication key" authkey 16).trace ++
        (parse_name env "Name" name (64 + 2)).trace ++
        [.returned "parse_pw" "Derivation password" true,
         .PKCS5_PBKDF2_HMAC derivation_password derivation_password.length
           env.YKYH_DEFAULT_SALT env.YKYH_DEFAULT_SALT.length env.YKYH_DEFAULT_ITERS 32] ++
        (parse_pw env "Credential Password (max 16 characters)" password (16 + 2)).trace ++
        [.device (.ykyh_put authkey_parsed 16 name_parsed (k.val.take 16) 16
          ((k.val.drop 16).take 16) 16 pw_parsed (touch_flag touch_policy)),
         if rc = .YKYHR_SUCCESS then .stdout "Credential successfully stored\n"
         else .stderr ("Unable to store credential: " ++ env.ykyh_strerror rc ++ ", " ++
            fmt_d retries.val ++ " retries left\n")],
       if rc = .YKYHR_SUCCESS then some () else none⟩ := by
    unfold put_credential
    by_cases h1 : rc = .YKYHR_SUCCESS
    · simp only [bind_of_result _ ha2, bind_of_result _ hn2, hc, and_self, if_false,
        if_true, hl0, bind_mk_some, bind_mk_none, run_pure_eq, hdp, pbkdf2_run, hk,
        bind_of_result _ hp2, hlp2, parse_touch_policy_run, ykyh_put_run, hd2, h1, ne_eq,
        not_true_eq_false, emit, List.nil_append, List.append_nil, List.append_assoc,
        List.cons_append]
      rfl
    · simp only [bind_of_result _ ha2, bind_of_result _ hn2, hc, and_self, if_false,
        if_true, hl0, bind_mk_some, bind_mk_none, run_pure_eq, hdp, pbkdf2_run, hk,
        bind_of_result _ hp2, hlp2, parse_touch_policy_run, ykyh_put_run, hd2, h1, ne_eq,
        not_true_eq_false, not_false_eq_true, emit, return_false, List.nil_append,
        List.append_nil, List.append_assoc, List.cons_append]
      rfl
  have da := (local_parse_key env "Authentication key" authkey 16).1
  have dn := (local_parse_name env "Name" name (64 + 2)).1
  have dp := (local_parse_pw env "Credential Password (max 16 characters)" password
    (16 + 2)).1
  have hkl : k.val.length = 32 := k.property
  rw [run]
  refine ⟨rfl, ?_, (kdf_halves k).1, (kdf_halves k).2, ?_, ⟨rfl, rfl, rfl⟩, ?_⟩
  · simp only [device_calls_append, da, dn, dp, List.nil_append, List.append_nil]
    by_cases h1 : rc = .YKYHR_SUCCESS
    · rw [if_pos h1]; rfl
    · rw [if_neg h1]; rfl
  · have e : (k.val.drop 16).take 16 = k.val.drop 16 := by
      apply List.take_of_length_le
      rw [List.length_drop]; omega
    rw [e, List.take_append_drop]
  · by_cases h1 : rc = .YKYHR_SUCCESS
    · simp [Run.returns, h1]
    · simp [Run.returns, h1]

/-- C6, at the scenario of the spec: name "my-cred", authentication key 16 zero
bytes, derivation password "hunter2", touch policy off, against a device that
succeeds. There is exactly one device call, a `ykyh_put` with the two halves of
the derived key and touch flag 0, and the operation succeeds. -/
theorem put_credential_derived_keys_witness :
    device_calls (put_credential (example_env .YKYHR_SUCCESS 0 [] no_args) zero_key_hex
        "my-cred" "hunter2" [] [] "pw" .touch_arg_off).trace =
      [.ykyh_put (List.replicate 16 0) 16 "my-cred".toList
        ((example_kdf 32).val.take 16) 16 (((example_kdf 32).val.drop 16).take 16) 16
        "pw".toList 0] ∧
    (put_credential (example_env .YKYHR_SUCCESS 0 [] no_args) zero_key_hex
        "my-cred" "hunter2" [] [] "pw" .touch_arg_off).returns = true :=
  ⟨(put_credential_derived_keys (example_env .YKYHR_SUCCESS 0 [] no_args) zero_key_hex
      "my-cred" "hunter2" "pw" .touch_arg_off (List.replicate 16 0) "my-cred" "pw"
      16 7 2 (example_kdf 32) .YKYHR_SUCCESS 0 (by decide) (by decide) (by decide)
      (by decide) rfl (by decide) (by decide) rfl).2.1,
   (put_credential_derived_keys (example_env .YKYHR_SUCCESS 0 [] no_args) zero_key_hex
      "my-cred" "hunter2" "pw" .touch_arg_off (List.replicate 16 0) "my-cred" "pw"
      16 7 2 (example_kdf 32) .YKYHR_SUCCESS 0 (by decide) (by decide) (by decide)
      (by decide) rfl (by decide) (by decide) rfl).2.2.2.2.2.2.mpr rfl⟩
/-- C7: what `calculate_session_keys` reports. With a name, a context and a
password that their parsers accept, the one device call is `ykyh_calculate` with
the parsed values and a context length of 8. When the status is not success the
operation returns `false`, writes nothing to `stdout` (no session key), and
writes to `stderr` the error line, followed by "`r` attempts left" exactly when
the status is `YKYHR_WRONG_PW`, `r` being the retries the device reported. When
the status is success it returns `true`, writes nothing to `stderr`, and writes
to `stdout` the three lines of the three keys the device returned, 16 bytes of
each in hexadecimal. -/
theorem calculate_session_keys_reports (env : Env) (name password context : CString)
    (name_parsed pw_parsed : CString) (context_parsed : List uint8_t) (ln lc lp : Nat)
    (rc : ykyh_rc) (retries : uint8_t) (key_s_enc key_s_mac key_s_rmac : List uint8_t)
    (hn : (parse_name env "Name" name (YKYH_MAX_NAME_LEN + 2)).result =
      some (name_parsed, ln))
    (hc : (parse_context env "Context" context YKYH_CONTEXT_LEN).result =
      some (context_parsed, lc))
    (hp : (parse_pw env "Password" password (YKYH_PW_LEN + 2)).result =
      some (pw_parsed, lp))
    (hd : env.ykyh_calculate name_parsed context_parsed 8 pw_parsed 16 16 16 =
      (rc, retries, key_s_enc, key_s_mac, key_s_rmac)) :
    device_calls (calculate_session_keys env name password context).trace =
      [.ykyh_calculate name_parsed context_parsed 8 pw_parsed 16 16 16] ∧
    (rc ≠ .YKYHR_SUCCESS →
      (calculate_session_keys env name password context).returns = false ∧
      stdout_text (calculate_session_keys env name password context).trace = [] ∧
      stderr_text (calculate_session_keys env name password context).trace =
        "Unable to calculate session keys: " ++ env.ykyh_strerror rc ++ "\n" ++
          (if rc = .YKYHR_WRONG_PW then fmt_d retries.val ++ " attempts left\n" else [])) ∧
    (rc = .YKYHR_SUCCESS →
      (calculate_session_keys env name password context).returns = true ∧
      stderr_text (calculate_session_keys env name password context).trace = [] ∧
      stdout_text (calculate_session_keys env name password context).trace =
        "Session encryption key: " ++ key_text key_s_enc 16 ++ "\n" ++
        "Session MAC key: " ++ key_text key_s_mac 16 ++ "\n" ++
        "Session R-MAC key: " ++ key_text key_s_rmac 16 ++ "\n") := by
  have hlc : lc = YKYH_CONTEXT_LEN := (parse_context_ok _ _ _ _ _ hc).2.2
  subst hlc
  have hd2 : env.ykyh_calculate name_parsed context_parsed YKYH_CONTEXT_LEN pw_parsed
      YKYH_KEY_LEN YKYH_KEY_LEN YKYH_KEY_LEN =
      (rc, retries, key_s_enc, key_s_mac, key_s_rmac) := hd
  have dn := (local_parse_name env "Name" name (YKYH_MAX_NAME_LEN + 2)).1
  have dc := (local_parse_context env "Context" context YKYH_CONTEXT_LEN).1
  have dp := (local_parse_pw env "Password" password (YKYH_PW_LEN + 2)).1
  have qn := parse_name_quiet _ _ _ _ _ hn
  have qc := parse_context_quiet _ _ _ _ _ hc
  have qp := parse_pw_quiet _ _ _ _ _ hp
  have e16 : YKYH_KEY_LEN = 16 := rfl
  have e8 : YKYH_CONTEXT_LEN = 8 := rfl
  refine ⟨?_, ?_, ?_⟩
  · unfold calculate_session_keys
    by_cases h1 : rc = .YKYHR_SUCCESS
    · simp only [bind_trace, bind_result, hn, hc, hp, ykyh_calculate_result,
        ykyh_calculate_trace, hd2, Option.bind, device_calls_append, dn, dc, dp, h1,
        ne_eq, not_true_eq_false, if_false, pure_trace, pure_result, print_key_result,
        print_key_device_calls, device_calls_device, device_calls_nil, List.append_nil,
        List.nil_append]
      rfl
    · by_cases h2 : rc = .YKYHR_WRONG_PW
      · simp only [bind_trace, bind_result, hn, hc, hp, ykyh_calculate_result,
          ykyh_calculate_trace, hd2, Option.bind, device_calls_append, dn, dc, dp, h2,
          ne_eq, not_false_eq_true, if_true, pure_trace, pure_result, emit_trace,
          emit_result, return_false_trace, return_false_result, reduceCtorEq,
          device_calls_device, device_calls_nil, device_calls_stderr, List.append_nil,
          List.nil_append]
        rfl
      · simp only [bind_trace, bind_result, hn, hc, hp, ykyh_calculate_result,
          ykyh_calculate_trace, hd2, Option.bind, device_calls_append, dn, dc, dp, h1, h2,
          ne_eq, not_false_eq_true, if_true, if_false, pure_trace, pure_result, emit_trace,
          emit_result, return_false_trace, return_false_result,
          device_calls_device, device_calls_nil, device_calls_stderr, List.append_nil,
          List.nil_append]
        rfl
  · intro h1
    unfold Run.returns calculate_session_keys
    by_cases h2 : rc = .YKYHR_WRONG_PW
    · simp only [bind_trace, bind_result, hn, hc, hp, ykyh_calculate_result,
        ykyh_calculate_trace, hd2, Option.bind, stdout_text_append, stderr_text_append,
        qn, qc, qp, h2, ne_eq, not_false_eq_true, if_true, pure_trace, reduceCtorEq,
        pure_result, emit_trace, emit_result, return_false_trace, return_false_result,
        stdout_text_device, stdout_text_stderr, stderr_text_device, stderr_text_stderr,
        stdout_text_nil, stderr_text_nil, List.append_nil, List.nil_append,
        Option.isSome_none, List.append_assoc, and_self]
    · simp only [bind_trace, bind_result, hn, hc, hp, ykyh_calculate_result,
        ykyh_calculate_trace, hd2, Option.bind, stdout_text_append, stderr_text_append,
        qn, qc, qp, h1, h2, ne_eq, not_false_eq_true, if_true, if_false, pure_trace,
        pure_result, emit_trace, emit_result, return_false_trace, return_false_result,
        stdout_text_device, stdout_text_stderr, stderr_text_device, stderr_text_stderr,
        stdout_text_nil, stderr_text_nil, List.append_nil, List.nil_append,
        Option.isSome_none, List.append_assoc, and_self]
  · intro h1
    unfold Run.returns calculate_session_keys
    simp only [bind_trace, bind_result, hn, hc, hp, ykyh_calculate_result,
      ykyh_calculate_trace, hd2, Option.bind, stdout_text_append, stderr_text_append,
      qn, qc, qp, h1, ne_eq, not_true_eq_false, if_false, pure_trace,
      pure_result, print_key_result, print_key_stdout, print_key_stderr,
      stdout_text_device, stderr_text_device,
      stdout_text_nil, stderr_text_nil, List.append_nil, List.nil_append, Option.isSome_some,
      List.append_assoc]
    exact ⟨trivial, trivial, rfl⟩
/-- C7, at the scenario of the spec: name "my-cred", context 8 zero bytes, password
"hunter2", a device that answers `YKYHR_WRONG_PW` with 2 retries left. The
operation fails, prints no session key, and reports "2 attempts left". -/
theorem calculate_session_keys_reports_witness :
    (calculate_session_keys (example_env .YKYHR_WRONG_PW 2 [] no_args)
      "my-cred" "hunter2" zero_context_hex).returns = false ∧
    stdout_text (calculate_session_keys (example_env .YKYHR_WRONG_PW 2 [] no_args)
      "my-cred" "hunter2" zero_context_hex).trace = [] ∧
    stderr_text (calculate_session_keys (example_env .YKYHR_WRONG_PW 2 [] no_args)
      "my-cred" "hunter2" zero_context_hex).trace =
      "Unable to calculate session keys: Wrong password\n2 attempts left\n".toList :=
  (calculate_session_keys_reports (example_env .YKYHR_WRONG_PW 2 [] no_args)
    "my-cred" "hunter2" zero_context_hex "my-cred" "hunter2" (List.replicate 8 0) 7 8 7
    .YKYHR_WRONG_PW 2 (List.replicate 16 17) (List.replicate 16 34) (List.replicate 16 51)
    (by decide) (by decide) (by decide) rfl).2.1 (by decide)
/-! ## `main` -/

theorem call_result (m : Run Unit) : (call m).result = some m.returns := rfl

/-- The `bool` returned by the action function `main` selects; `false` when no
action was given. -/
theorem main_body_result (env : Env) (argv : List CString) (parsed : Int)
    (args_info : gengetopt_args_info) (hp : env.cmdline_parse argv = (parsed, args_info)) :
    (main_body env argv).result =
      if parsed ≠ 0 then none
      else if env.ykyh_init args_info.verbose_arg ≠ .YKYHR_SUCCESS then none
      else if env.ykyh_connect args_info.reader_arg ≠ .YKYHR_SUCCESS then none
      else some (if (match args_info.action_arg with
        | .action_arg_calculate =>
          (calculate_session_keys env args_info.name_arg args_info.password_arg
            args_info.context_arg).returns
        | .action_arg_change =>
          (put_authkey env args_info.authkey_arg args_info.newkey_arg).returns
        | .action_arg_delete =>
          (delete_credential env args_info.authkey_arg args_info.name_arg).returns
        | .action_arg_list => (list_credentials env).returns
        | .action_arg_put =>
          (put_credential env args_info.authkey_arg args_info.name_arg
            args_info.derivation_password_arg args_info.enckey_arg args_info.mackey_arg
            args_info.password_arg args_info.touch_arg).returns
        | .action_arg_reset => (reset_device env).returns
        | .action_arg_retries => (get_authkey_retries env).returns
        | .action_arg_version => (get_version env).returns
        | .action__NULL => false) = true then EXIT_SUCCESS else EXIT_FAILURE) := by
  unfold main_body
  rw [hp]
  by_cases h1 : parsed = 0
  · by_cases h2 : env.ykyh_init args_info.verbose_arg = .YKYHR_SUCCESS
    · by_cases h3 : env.ykyh_connect args_info.reader_arg = .YKYHR_SUCCESS
      · cases h4 : args_info.action_arg <;>
          simp only [h1, h2, h3, h4, ne_eq, not_true_eq_false, if_false, bind_result,
            pure_result, ykyh_init, ykyh_connect, Option.bind, call_result, emit_result,
            ite_result] <;> split <;> rfl
      · simp only [h1, h2, h3, ne_eq, not_true_eq_false, not_false_eq_true, if_false,
          if_true, bind_result, pure_result, ykyh_init, ykyh_connect, Option.bind,
          emit_result, return_false_result]
    · simp only [h1, h2, ne_eq, not_true_eq_false, not_false_eq_true, if_false,
        if_true, bind_result, pure_result, ykyh_init, Option.bind,
        emit_result, return_false_result]
  · simp only [h1, ne_eq, not_false_eq_true, if_true, bind_result, return_false_result,
      Option.bind]

/-- C8: the exit code of `main`. It is `EXIT_SUCCESS = 0` or `EXIT_FAILURE = 1`,
and it is 0 exactly when the command line parses, `ykyh_init` and `ykyh_connect`
succeed, and the one action function selected by the action argument returns
`true`; with no action given it is never 0. -/
theorem main_exit_code (env : Env) (argv : List CString) (parsed : Int)
    (args_info : gengetopt_args_info) (hp : env.cmdline_parse argv = (parsed, args_info)) :
    ((main env argv).2 = 0 ∨ (main env argv).2 = 1) ∧
    ((main env argv).2 = 0 ↔
      parsed = 0 ∧
      env.ykyh_init args_info.verbose_arg = .YKYHR_SUCCESS ∧
      env.ykyh_connect args_info.reader_arg = .YKYHR_SUCCESS ∧
      (match args_info.action_arg with
        | .action_arg_calculate =>
          (calculate_session_keys env args_info.name_arg args_info.password_arg
            args_info.context_arg).returns
        | .action_arg_change =>
          (put_authkey env args_info.authkey_arg args_info.newkey_arg).returns
        | .action_arg_delete =>
          (delete_credential env args_info.authkey_arg args_info.name_arg).returns
        | .action_arg_list => (list_credentials env).returns
        | .action_arg_put =>
          (put_credential env args_info.authkey_arg args_info.name_arg
            args_info.derivation_password_arg args_info.enckey_arg args_info.mackey_arg
            args_info.password_arg args_info.touch_arg).returns
        | .action_arg_reset => (reset_device env).returns
        | .action_arg_retries => (get_authkey_retries env).returns
        | .action_arg_version => (get_version env).returns
        | .action__NULL => false) = true) := by
  have hb := main_body_result env argv parsed args_info hp
  unfold main
  simp only [hb]
  by_cases h1 : parsed = 0
  · by_cases h2 : env.ykyh_init args_info.verbose_arg = .YKYHR_SUCCESS
    · by_cases h3 : env.ykyh_connect args_info.reader_arg = .YKYHR_SUCCESS
      · simp only [h1, h2, h3, ne_eq, not_true_eq_false, if_false, Option.getD_some,
          true_and]
        split <;> simp_all [EXIT_SUCCESS, EXIT_FAILURE]
      · simp [h1, h2, h3, EXIT_FAILURE]
    · simp [h1, h2, EXIT_FAILURE]
  · simp [h1, EXIT_FAILURE]

/-- C8, at a concrete run: `list` against a device returning 0 entries exits
with code 0. -/
theorem main_exit_code_witness :
    (main (example_env .YKYHR_SUCCESS 0 []
      { no_args with action_arg := .action_arg_list }) []).2 = 0 :=
  ((main_exit_code (example_env .YKYHR_SUCCESS 0 []
      { no_args with action_arg := .action_arg_list }) [] 0
      { no_args with action_arg := .action_arg_list } rfl).2).mpr
    ⟨rfl, rfl, rfl, by decide⟩
/-! ## `list_credentials` -/

theorem list_credentials_loop_run (list : List ykyh_list_entry) :
    list_credentials_loop list =
      ⟨list.map fun e => .stdout (fmt_d e.algo.val ++ "\t" ++ fmt_d e.touch.val ++ "\t" ++
        fmt_d e.ctr.val ++ "\t" ++ e.name ++ "\n"), some ()⟩ := by
  induction list with
  | nil => rfl
  | cons e rest ih =>
    unfold list_credentials_loop
    rw [ih]
    rfl

/-- C9: what `list_credentials` reports, for every reply `(rc, entries)` of the
device to the one `ykyh_list_keys` call. When the device fails, the operation
returns `false` and writes nothing to `stdout`. When it succeeds with no entry,
the operation returns `true` and writes just "No items found". When it succeeds
with `n > 0` entries, the operation returns `true` and writes the two header
lines followed by exactly `n` entry lines `algo, touch, counter, name`, the
`i`-th line being that of the `i`-th entry the device returned. -/
theorem list_credentials_reports (env : Env) (rc : ykyh_rc)
    (entries : List ykyh_list_entry) (hd : env.ykyh_list_keys 32 = (rc, entries)) :
    device_calls (list_credentials env).trace = [.ykyh_list_keys 32] ∧
    (rc ≠ .YKYHR_SUCCESS →
      (list_credentials env).returns = false ∧
      (list_credentials env).trace = [.device (.ykyh_list_keys 32),
        .stderr ("Unable to list credentials: " ++ env.ykyh_strerror rc ++ "\n")] ∧
      stdout_text (list_credentials env).trace = []) ∧
    (rc = .YKYHR_SUCCESS → entries = [] →
      (list_credentials env).returns = true ∧
      (list_credentials env).trace = [.device (.ykyh_list_keys 32),
        .stdout "No items found\n"]) ∧
    (rc = .YKYHR_SUCCESS → entries ≠ [] →
      (list_credentials env).returns = true ∧
      (list_credentials env).trace = [.device (.ykyh_list_keys 32),
        .stdout ("Found " ++ fmt_d entries.length ++ " item(s)\n"),
        .stdout "Algo\tTouch\tCounter\tName\n"] ++
        entries.map (fun e => .stdout (fmt_d e.algo.val ++ "\t" ++ fmt_d e.touch.val ++
          "\t" ++ fmt_d e.ctr.val ++ "\t" ++ e.name ++ "\n")) ∧
      ((list_credentials env).trace.drop 3).length = entries.length ∧
      ∀ (i : Nat) (h : i < entries.length),
        (list_credentials env).trace[3 + i]? =
          some (.stdout (fmt_d (entries.get ⟨i, h⟩).algo.val ++ "\t" ++
            fmt_d (entries.get ⟨i, h⟩).touch.val ++ "\t" ++
            fmt_d (entries.get ⟨i, h⟩).ctr.val ++ "\t" ++
            (entries.get ⟨i, h⟩).name ++ "\n"))) := by
  have run : list_credentials env =
      if rc ≠ .YKYHR_SUCCESS then
        ⟨[.device (.ykyh_list_keys 32),
          .stderr ("Unable to list credentials: " ++ env.ykyh_strerror rc ++ "\n")], none⟩
      else if entries.length = 0 then
        ⟨[.device (.ykyh_list_keys 32), .stdout "No items found\n"], some ()⟩
      else
        ⟨[.device (.ykyh_list_keys 32),
          .stdout ("Found " ++ fmt_d entries.length ++ " item(s)\n"),
          .stdout "Algo\tTouch\tCounter\tName\n"] ++
          entries.map (fun e => .stdout (fmt_d e.algo.val ++ "\t" ++ fmt_d e.touch.val ++
            "\t" ++ fmt_d e.ctr.val ++ "\t" ++ e.name ++ "\n")), some ()⟩ := by
    unfold list_credentials ykyh_list_keys
    rw [hd]
    by_cases h1 : rc = .YKYHR_SUCCESS
    · by_cases h2 : entries.length = 0
      · simp only [h1, h2, ne_eq, not_true_eq_false, if_false, if_true, bind_mk_some,
          run_pure_eq, emit, List.append_nil, List.nil_append, List.singleton_append]
      · simp only [h1, h2, ne_eq, not_true_eq_false, if_false, list_credentials_loop_run,
          bind_mk_some, run_pure_eq, emit, List.append_nil, List.nil_append,
          List.singleton_append, List.cons_append]
    · simp only [h1, ne_eq, not_false_eq_true, if_true, bind_mk_some, bind_mk_none,
        run_pure_eq, emit, return_false, List.append_nil, List.nil_append,
        List.singleton_append]
  rw [run]
  refine ⟨?_, ?_, ?_, ?_⟩
  · by_cases h1 : rc = .YKYHR_SUCCESS
    · by_cases h2 : entries.length = 0
      · simp only [h1, h2, ne_eq, not_true_eq_false, if_false, if_true]
        rfl
      · simp only [h1, h2, ne_eq, not_true_eq_false, if_false]
        simp [device_calls, List.filterMap_append]
    · simp only [h1, ne_eq, not_false_eq_true, if_true]
      rfl
  · intro h1
    rw [if_pos h1]
    exact ⟨rfl, rfl, rfl⟩
  · intro h1 h2
    subst h2
    rw [if_neg (not_not.mpr h1)]
    exact ⟨rfl, rfl⟩
  · intro h1 h2
    have h3 : entries.length ≠ 0 := fun h => h2 (List.length_eq_zero.mp h)
    rw [if_neg (not_not.mpr h1), if_neg h3]
    refine ⟨rfl, rfl, ?_, ?_⟩
    · simp
    · intro i h
      have e : 3 + i = i + 1 + 1 + 1 := by omega
      rw [e]
      simp only [List.cons_append, List.nil_append, List.getElem?_cons_succ,
        List.getElem?_map, List.getElem?_eq_getElem h, Option.map_some', List.get_eq_getElem]

/-- C9, at the scenario of the spec: a device returning 0 entries. The operation
reports "No items found" and succeeds. -/
theorem list_credentials_reports_witness :
    (list_credentials (example_env .YKYHR_SUCCESS 0 [] no_args)).returns = true ∧
    (list_credentials (example_env .YKYHR_SUCCESS 0 [] no_args)).trace =
      [.device (.ykyh_list_keys 32), .stdout "No items found\n".toList] :=
  (list_credentials_reports (example_env .YKYHR_SUCCESS 0 [] no_args) .YKYHR_SUCCESS []
    rfl).2.2.1 rfl rfl

end Yhauth
